import Mathlib

/-!
# Verification of the Aurora Aqua User Intent & Emotional State Engine

A shallow embedding of `src/js/utils/UserIntent.js` (class `UserIntentTracker`)
over the rationals, together with proofs of the behavioural properties stated
in the specification: channel boundedness, emotional-phase monotonicity,
zone-gate hysteresis, perception-shift idempotence, unlock-latch monotonicity
and cursor-dwell semantics.

Modelling conventions:
* JavaScript numbers are modelled as `ℚ` (exact arithmetic; the engine's
  clamping logic is insensitive to rounding, and none of the properties
  below depends on IEEE-754 rounding behaviour).
* `performance.now() / 1000` readings are passed explicitly as a `now`
  argument to the functions that read the wall clock; traces of operations
  carry non-decreasing timestamps (`performance.now` is monotone).
* Field names drop the leading underscore of the JS private fields but are
  otherwise kept verbatim (`_scrollY` becomes `scrollY`, etc.).
* The one square root that feeds a stored value
  (`Math.sqrt(dx*dx+dy*dy)` in `_handleMouseMove`) is irrational over `ℚ`, so
  the pointer-move event carries that computed magnitude as an explicit
  input `dist`; trace validity only requires `0 ≤ dist`, which is the only
  property of a real square root the engine's behaviour depends on.  The
  other square root (`centerDist` in `update`) is compared against `0.3`
  and is translated as the equivalent comparison of the squared distance
  against `0.09`.
-/

namespace AquaIntent

/-- One entry of the scroll history ring (`{ y, time, velocity }`). -/
structure ScrollSample where
  y : ℚ
  time : ℚ
  velocity : ℚ
deriving DecidableEq

/-- The payload of the `emotionalPhaseChange` CustomEvent
(`detail: { phase, index }`). -/
structure PhaseEvent where
  phase : String
  index : ℕ
deriving DecidableEq

/-- The full mutable state of `UserIntentTracker`.  Field names follow the
source (leading underscores dropped); `cursorDwellPosition : {x, y}` is
split into `cursorDwellX`/`cursorDwellY`, and `_startTime` is a constructor
parameter of `initTracker`. -/
structure Tracker where
  -- raw input
  scrollY : ℚ
  prevScrollY : ℚ
  scrollDelta : ℚ
  scrollVelocity : ℚ
  scrollAccel : ℚ
  prevScrollVelocity : ℚ
  lastScrollTime : ℚ
  scrollDirectionChanges : ℚ
  lastScrollDirection : ℚ
  directionChangeDecay : ℚ
  mouseX : ℚ
  mouseY : ℚ
  mouseVelocity : ℚ
  prevMouseX : ℚ
  prevMouseY : ℚ
  mouseIdleTime : ℚ
  lastMouseMoveTime : ℚ
  -- derived intent values
  rushFactor : ℚ
  lingerFactor : ℚ
  hesitationFactor : ℚ
  mouseIntensity : ℚ
  cursorDwelling : Bool
  cursorDwellX : ℚ
  cursorDwellY : ℚ
  cursorDwellDuration : ℚ
  explorationRhythm : ℚ
  zoneGateLocked : Bool
  zoneGateTimer : ℚ
  -- emotional progression
  emotionalPhase : String
  emotionalPhaseIndex : ℕ
  phaseProgress : ℚ
  phaseAccumulator : ℚ
  confrontationTriggered : Bool
  revelationTriggered : Bool
  -- perception shift
  perceptionShiftActive : Bool
  perceptionShiftTriggered : Bool
  perceptionShiftProgress : ℚ
  gravityInverted : Bool
  timeScale : ℚ
  -- interaction states
  guideFishUnlocked : Bool
  dataPanelsExpanded : Bool
  beamResonance : ℚ
  guideFishLingerAccum : ℚ
  -- scroll history
  scrollHistory : List ScrollSample
  scrollHistoryMaxAge : ℚ
  startTime : ℚ
deriving DecidableEq

/-- The constructor of `UserIntentTracker`, with the `performance.now()/1000`
reading at construction time passed as `t0`.  (`_guideFishLingerAccum` is
created lazily in JS via `(this._guideFishLingerAccum || 0)`; starting it at
`0` here is equivalent.) -/
def initTracker (t0 : ℚ) : Tracker where
  scrollY := 0
  prevScrollY := 0
  scrollDelta := 0
  scrollVelocity := 0
  scrollAccel := 0
  prevScrollVelocity := 0
  lastScrollTime := 0
  scrollDirectionChanges := 0
  lastScrollDirection := 0
  directionChangeDecay := 0
  mouseX := 0.5
  mouseY := 0.5
  mouseVelocity := 0
  prevMouseX := 0.5
  prevMouseY := 0.5
  mouseIdleTime := 0
  lastMouseMoveTime := 0
  rushFactor := 0
  lingerFactor := 0
  hesitationFactor := 0
  mouseIntensity := 0
  cursorDwelling := false
  cursorDwellX := 0.5
  cursorDwellY := 0.5
  cursorDwellDuration := 0
  explorationRhythm := 0
  zoneGateLocked := false
  zoneGateTimer := 0
  emotionalPhase := "curiosity"
  emotionalPhaseIndex := 0
  phaseProgress := 0
  phaseAccumulator := 0
  confrontationTriggered := false
  revelationTriggered := false
  perceptionShiftActive := false
  perceptionShiftTriggered := false
  perceptionShiftProgress := 0
  gravityInverted := false
  timeScale := 1.0
  guideFishUnlocked := false
  dataPanelsExpanded := false
  beamResonance := 0
  guideFishLingerAccum := 0
  scrollHistory := []
  scrollHistoryMaxAge := 3
  startTime := t0

/-- `Math.sign`. -/
def signQ (q : ℚ) : ℚ :=
  if 0 < q then 1 else if q < 0 then -1 else 0

/-- `_handleScroll()`; `now` is `performance.now()/1000`, `y` is
`window.scrollY`. -/
def handleScroll (s : Tracker) (now y : ℚ) : Tracker :=
  let dt := max (now - s.lastScrollTime) 0.001
  let scrollDelta := y - s.scrollY
  let newVelocity := scrollDelta / dt
  let dir := signQ scrollDelta
  let changed := dir ≠ 0 ∧ dir ≠ s.lastScrollDirection
  { s with
    prevScrollY := s.scrollY
    scrollY := y
    scrollDelta := scrollDelta
    scrollAccel := (newVelocity - s.scrollVelocity) / dt
    prevScrollVelocity := s.scrollVelocity
    scrollVelocity := newVelocity
    lastScrollTime := now
    scrollDirectionChanges :=
      if changed then s.scrollDirectionChanges + 1 else s.scrollDirectionChanges
    lastScrollDirection := if changed then dir else s.lastScrollDirection
    scrollHistory :=
      (s.scrollHistory ++ [ScrollSample.mk y now newVelocity]).filter
        (fun e => now - e.time < s.scrollHistoryMaxAge) }

/-- `_handleMouseMove(e)`; `x`/`y` are the viewport-normalised
`clientX/innerWidth`, `clientY/innerHeight`; `dist` is the computed value of
`Math.sqrt(dx*dx + dy*dy)` (carried as an input because square roots are
irrational over `ℚ`; validity of a trace only requires `0 ≤ dist`). -/
def handleMouseMove (s : Tracker) (now x y dist : ℚ) : Tracker :=
  { s with
    prevMouseX := s.mouseX
    prevMouseY := s.mouseY
    mouseX := x
    mouseY := y
    mouseVelocity := dist * 60
    lastMouseMoveTime := now
    mouseIdleTime := 0 }

/-- `_handleMouseDown()`: clicks nudge the emotional accumulator. -/
def handleMouseDown (s : Tracker) : Tracker :=
  { s with phaseAccumulator := s.phaseAccumulator + 0.02 }

/-- The phase-name table of `_updateEmotionalPhase`. -/
def phases : List String :=
  ["curiosity", "uncertainty", "confrontation", "revelation", "transformation"]

/-- The per-phase `accumRate` selected by the JS `switch` (before the
`Math.max(0, accumRate)` floor). -/
def accumRate0 (s : Tracker) : ℚ :=
  if s.emotionalPhaseIndex = 0 then
    s.rushFactor * 0.03 + s.mouseIntensity * 0.02 +
      (if s.hesitationFactor > 0.2 then 0.01 else 0)
  else if s.emotionalPhaseIndex = 1 then
    s.hesitationFactor * 0.04 + s.lingerFactor * 0.02 - s.rushFactor * 0.01
  else if s.emotionalPhaseIndex = 2 then
    s.mouseIntensity * 0.03 + s.rushFactor * 0.02 +
      (if s.cursorDwelling then 0.015 else 0)
  else if s.emotionalPhaseIndex = 3 then
    s.lingerFactor * 0.05 + (1 - s.rushFactor) * 0.02
  else 0

/-- `accumRate = Math.max(0, accumRate)`. -/
def accumRate (s : Tracker) : ℚ :=
  max 0 (accumRate0 s)

/-- The value of `_phaseAccumulator` after
`this._phaseAccumulator += accumRate * delta` (before any advance reset). -/
def phaseAccNext (s : Tracker) (delta : ℚ) : ℚ :=
  s.phaseAccumulator + accumRate s * delta

/-- The phase-advance condition `_phaseAccumulator >= 1 && phaseIndex < 4`. -/
def advances (s : Tracker) (delta : ℚ) : Prop :=
  1 ≤ phaseAccNext s delta ∧ s.emotionalPhaseIndex < 4

instance (s : Tracker) (delta : ℚ) : Decidable (advances s delta) := by
  unfold advances
  infer_instance

/-- `_updateEmotionalPhase(delta, elapsed)` (the second argument is passed
but never read in the source).  Returns the new state together with the
`emotionalPhaseChange` event dispatched on an advance (if any).  The
`case 4` arm of the JS `switch` assigns `this.phaseProgress = 1`; that
assignment is modelled faithfully even though the unconditional
`this.phaseProgress = Math.min(this._phaseAccumulator, 1)` after the switch
overwrites it. -/
def updateEmotionalPhase (s : Tracker) (delta _elapsed : ℚ) :
    Tracker × Option PhaseEvent :=
  -- the JS `switch` is split into the rate it selects (`accumRate0`) and
  -- the side effects the selected arm performs (`s0`)
  let s0 : Tracker :=
    if s.emotionalPhaseIndex = 2 then
      (if s.confrontationTriggered then s
       else { s with confrontationTriggered := true })
    else if s.emotionalPhaseIndex = 3 then
      (if s.revelationTriggered then s
       else { s with revelationTriggered := true })
    else if s.emotionalPhaseIndex = 4 then
      { s with phaseProgress := 1 }
    else s
  let acc := s0.phaseAccumulator + accumRate s * delta
  let s1 := { s0 with phaseAccumulator := acc, phaseProgress := min acc 1 }
  if 1 ≤ acc ∧ s1.emotionalPhaseIndex < 4 then
    let newIdx := s1.emotionalPhaseIndex + 1
    let s2 := { s1 with
      emotionalPhaseIndex := newIdx
      emotionalPhase := phases.getD newIdx ""
      phaseAccumulator := 0
      phaseProgress := 0 }
    (s2, some ⟨s2.emotionalPhase, newIdx⟩)
  else
    (s1, none)

/-- `targetRush = min(|scrollVelocity| / 2000, 1)`. -/
def targetRush (s : Tracker) : ℚ :=
  min (|s.scrollVelocity| / 2000) 1

/-- The value of `rushFactor` after `rushFactor += (targetRush - rushFactor) * 0.08`. -/
def rushNext (s : Tracker) : ℚ :=
  s.rushFactor + (targetRush s - s.rushFactor) * 0.08

/-- The value of `lingerFactor`: `min(scrollIdle / 3.0, 1.0)` with
`scrollIdle = now - lastScrollTime`. -/
def lingerNext (s : Tracker) (now : ℚ) : ℚ :=
  min ((now - s.lastScrollTime) / 3.0) 1.0

/-- The value of `_directionChangeDecay` after its blend step. -/
def dcdNext (s : Tracker) : ℚ :=
  s.directionChangeDecay +
    (s.scrollDirectionChanges * 0.3 - s.directionChangeDecay) * 0.05

/-- The value of `hesitationFactor`: `min(_directionChangeDecay, 1.0)`. -/
def hesitationNext (s : Tracker) : ℚ :=
  min (dcdNext s) 1.0

/-- `targetMouseIntensity = min(_mouseVelocity / 0.5, 1)`. -/
def targetMouseIntensity (s : Tracker) : ℚ :=
  min (s.mouseVelocity / 0.5) 1

/-- The value of `mouseIntensity` after its blend step. -/
def mouseIntensityNext (s : Tracker) : ℚ :=
  s.mouseIntensity + (targetMouseIntensity s - s.mouseIntensity) * 0.1

/-- `targetRhythm = max(-1, min(1, rushContrib + lingerContrib + hesitContrib))`,
computed from the channel values already refreshed this tick. -/
def targetRhythm (s : Tracker) (now : ℚ) : ℚ :=
  max (-1) (min 1 (-(rushNext s) + lingerNext s now + hesitationNext s * 0.3))

/-- The value of `explorationRhythm` after its blend step. -/
def rhythmNext (s : Tracker) (now : ℚ) : ℚ :=
  s.explorationRhythm + (targetRhythm s now - s.explorationRhythm) * 0.03

/-- The zone-gate unlock condition `rushFactor < 0.15 && lingerFactor > 0.3`,
on the channel values refreshed this tick. -/
def unlockCond (s : Tracker) (now : ℚ) : Prop :=
  rushNext s < 0.15 ∧ lingerNext s now > 0.3

instance (s : Tracker) (now : ℚ) : Decidable (unlockCond s now) := by
  unfold unlockCond
  infer_instance

/-- `targetTimeScale = 1.0 + rushFactor * 0.8 - lingerFactor * 0.5` on the
refreshed channel values. -/
def targetTimeScale (s : Tracker) (now : ℚ) : ℚ :=
  1.0 + rushNext s * 0.8 - lingerNext s now * 0.5

/-- The value of `timeScale` after its blend-then-clamp step. -/
def timeScaleNext (s : Tracker) (now : ℚ) : ℚ :=
  max 0.3 (min 2.0 (s.timeScale + (targetTimeScale s now - s.timeScale) * 0.02))

/-- The Intent Synthesizer part of `update(delta)`: the channel refresh and
zone-gate block, i.e. everything `update` does before the call to
`_updateEmotionalPhase`.  The zone-gate locked/timer updates are written as
two conditionals over the same branch structure as the JS block. -/
def synthStep (s : Tracker) (delta now : ℚ) : Tracker :=
  let mit := s.mouseIdleTime + delta
  let dwelling := decide (mit > 1.2)
  { s with
    rushFactor := rushNext s
    lingerFactor := lingerNext s now
    directionChangeDecay := dcdNext s
    hesitationFactor := hesitationNext s
    scrollDirectionChanges := s.scrollDirectionChanges * 0.95
    mouseIdleTime := mit
    mouseIntensity := mouseIntensityNext s
    mouseVelocity := s.mouseVelocity * 0.9
    cursorDwelling := dwelling
    cursorDwellX := if dwelling then s.mouseX else s.cursorDwellX
    cursorDwellY := if dwelling then s.mouseY else s.cursorDwellY
    cursorDwellDuration := if dwelling then mit - 1.2 else 0
    explorationRhythm := rhythmNext s now
    zoneGateLocked :=
      if s.zoneGateLocked then
        if unlockCond s now then
          if s.zoneGateTimer + delta > 0.4 then false else true
        else true
      else s.zoneGateLocked
    zoneGateTimer :=
      if s.zoneGateLocked then
        if unlockCond s now then
          if s.zoneGateTimer + delta > 0.4 then 0
          else s.zoneGateTimer + delta
        else 0
      else s.zoneGateTimer
    timeScale := timeScaleNext s now }

/-- The Interaction Unlock part of `update(delta)`: guide-fish unlock, data
panels, and beam resonance — everything after `_updateEmotionalPhase`.
The beam-resonance condition `Math.sqrt((mx-0.5)**2+(my-0.5)**2) < 0.3` is
translated as the equivalent squared comparison `… < 0.09`. -/
def unlockStep (s : Tracker) (delta elapsed : ℚ) : Tracker :=
  let s3 :=
    if ¬s.guideFishUnlocked ∧ s.lingerFactor > 0.8 ∧ elapsed > 20 then
      let acc := s.guideFishLingerAccum + delta
      { s with
        guideFishLingerAccum := acc
        guideFishUnlocked := if acc > 4.0 then true else s.guideFishUnlocked }
    else s
  let s4 :=
    if s3.cursorDwelling ∧ s3.cursorDwellDuration > 2.0 then
      { s3 with dataPanelsExpanded := true }
    else s3
  let centerDistSq : ℚ := (s4.mouseX - 0.5) ^ 2 + (s4.mouseY - 0.5) ^ 2
  if centerDistSq < 0.09 ∧ s4.mouseIntensity > 0.2 then
    { s4 with beamResonance := min 1 (s4.beamResonance + delta * 0.3) }
  else
    { s4 with beamResonance := max 0 (s4.beamResonance - delta * 0.1) }

/-- `update(delta)`; `now` is `performance.now()/1000`.  Returns the new
state together with any `emotionalPhaseChange` event dispatched this tick.
The body is the sequential composition of the channel refresh
(`synthStep`), the emotional phase machine, and the interaction unlocks
(`unlockStep`), exactly in the source's order. -/
def update (s : Tracker) (delta now : ℚ) : Tracker × Option PhaseEvent :=
  let elapsed := now - s.startTime
  let s1 := synthStep s delta now
  let r := updateEmotionalPhase s1 delta elapsed
  (unlockStep r.1 delta elapsed, r.2)

/-- `requestZoneTransition()`.  Returns the new state and the boolean the
method returns. -/
def requestZoneTransition (s : Tracker) : Tracker × Bool :=
  if s.rushFactor > 0.4 then
    ({ s with zoneGateLocked := true, zoneGateTimer := 0 }, false)
  else
    (s, true)

/-- `triggerPerceptionShift()`. -/
def triggerPerceptionShift (s : Tracker) : Tracker :=
  if s.perceptionShiftTriggered then s
  else
    { s with
      perceptionShiftTriggered := true
      perceptionShiftActive := true
      perceptionShiftProgress := 0
      gravityInverted := true }

/-- `updatePerceptionShift(delta)`. -/
def updatePerceptionShift (s : Tracker) (delta : ℚ) : Tracker :=
  if s.perceptionShiftActive then
    let p := s.perceptionShiftProgress + delta * 0.25
    if p ≥ 1 then
      { s with
        perceptionShiftProgress := 1
        perceptionShiftActive := false
        gravityInverted := false }
    else
      { s with perceptionShiftProgress := p }
  else s

/-- One externally observable operation on the engine: a raw input event, a
per-frame tick, or one of the public trigger methods.  Operations that read
the wall clock carry their `performance.now()/1000` reading. -/
inductive Op where
  | scroll (now y : ℚ)
  | mouseMove (now x y dist : ℚ)
  | mouseDown
  | update (delta now : ℚ)
  | requestZoneTransition
  | triggerPerceptionShift
  | updatePerceptionShift (delta : ℚ)
deriving DecidableEq

/-- Apply one operation to the state (discarding yielded events/booleans). -/
def step (s : Tracker) : Op → Tracker
  | .scroll now y => handleScroll s now y
  | .mouseMove now x y dist => handleMouseMove s now x y dist
  | .mouseDown => handleMouseDown s
  | .update delta now => (update s delta now).1
  | .requestZoneTransition => (requestZoneTransition s).1
  | .triggerPerceptionShift => triggerPerceptionShift s
  | .updatePerceptionShift delta => updatePerceptionShift s delta

/-- Run a sequence of operations. -/
def run (s : Tracker) (ops : List Op) : Tracker :=
  ops.foldl step s

/-- Validity of an operation sequence whose previous clock reading was `t`:
clock readings are non-decreasing (`performance.now` is monotone), frame
deltas are non-negative, and the pointer-move distance (a square-root
magnitude) is non-negative. -/
def validFrom (t : ℚ) : List Op → Bool
  | [] => true
  | op :: rest =>
    match op with
    | .scroll now _ => decide (t ≤ now) && validFrom now rest
    | .mouseMove now _ _ dist =>
        decide (t ≤ now) && decide (0 ≤ dist) && validFrom now rest
    | .mouseDown => validFrom t rest
    | .update delta now =>
        decide (t ≤ now) && decide (0 ≤ delta) && validFrom now rest
    | .requestZoneTransition => validFrom t rest
    | .triggerPerceptionShift => validFrom t rest
    | .updatePerceptionShift delta => decide (0 ≤ delta) && validFrom t rest

/-- `true` iff every `update` operation in the list carries a clock reading
`≤ T`. -/
def updateTimesLE (T : ℚ) : List Op → Bool
  | [] => true
  | .update _ now :: rest => decide (now ≤ T) && updateTimesLE T rest
  | _ :: rest => updateTimesLE T rest

/-! Projection helper lemmas: push structure projections through conditionals
and through the frame (untouched fields) of each step of the model. -/

@[simp] theorem ite_proj_scrollY (c : Prop) [inst : Decidable c] (a b : Tracker) :
    (if c then a else b).scrollY = if c then a.scrollY else b.scrollY := by
  split <;> rfl

@[simp] theorem ite_proj_prevScrollY (c : Prop) [inst : Decidable c] (a b : Tracker) :
    (if c then a else b).prevScrollY = if c then a.prevScrollY else b.prevScrollY := by
  split <;> rfl

@[simp] theorem ite_proj_scrollDelta (c : Prop) [inst : Decidable c] (a b : Tracker) :
    (if c then a else b).scrollDelta = if c then a.scrollDelta else b.scrollDelta := by
  split <;> rfl

@[simp] theorem ite_proj_scrollVelocity (c : Prop) [inst : Decidable c] (a b : Tracker) :
    (if c then a else b).scrollVelocity = if c then a.scrollVelocity else b.scrollVelocity := by
  split <;> rfl

@[simp] theorem ite_proj_scrollAccel (c : Prop) [inst : Decidable c] (a b : Tracker) :
    (if c then a else b).scrollAccel = if c then a.scrollAccel else b.scrollAccel := by
  split <;> rfl

@[simp] theorem ite_proj_prevScrollVelocity (c : Prop) [inst : Decidable c] (a b : Tracker) :
    (if c then a else b).prevScrollVelocity = if c then a.prevScrollVelocity else b.prevScrollVelocity := by
  split <;> rfl

@[simp] theorem ite_proj_lastScrollTime (c : Prop) [inst : Decidable c] (a b : Tracker) :
    (if c then a else b).lastScrollTime = if c then a.lastScrollTime else b.lastScrollTime := by
  split <;> rfl

@[simp] theorem ite_proj_scrollDirectionChanges (c : Prop) [inst : Decidable c] (a b : Tracker) :
    (if c then a else b).scrollDirectionChanges = if c then a.scrollDirectionChanges else b.scrollDirectionChanges := by
  split <;> rfl

@[simp] theorem ite_proj_lastScrollDirection (c : Prop) [inst : Decidable c] (a b : Tracker) :
    (if c then a else b).lastScrollDirection = if c then a.lastScrollDirection else b.lastScrollDirection := by
  split <;> rfl

@[simp] theorem ite_proj_directionChangeDecay (c : Prop) [inst : Decidable c] (a b : Tracker) :
    (if c then a else b).directionChangeDecay = if c then a.directionChangeDecay else b.directionChangeDecay := by
  split <;> rfl

@[simp] theorem ite_proj_mouseX (c : Prop) [inst : Decidable c] (a b : Tracker) :
    (if c then a else b).mouseX = if c then a.mouseX else b.mouseX := by
  split <;> rfl

@[simp] theorem ite_proj_mouseY (c : Prop) [inst : Decidable c] (a b : Tracker) :
    (if c then a else b).mouseY = if c then a.mouseY else b.mouseY := by
  split <;> rfl

@[simp] theorem ite_proj_mouseVelocity (c : Prop) [inst : Decidable c] (a b : Tracker) :
    (if c then a else b).mouseVelocity = if c then a.mouseVelocity else b.mouseVelocity := by
  split <;> rfl

@[simp] theorem ite_proj_prevMouseX (c : Prop) [inst : Decidable c] (a b : Tracker) :
    (if c then a else b).prevMouseX = if c then a.prevMouseX else b.prevMouseX := by
  split <;> rfl

@[simp] theorem ite_proj_prevMouseY (c : Prop) [inst : Decidable c] (a b : Tracker) :
    (if c then a else b).prevMouseY = if c then a.prevMouseY else b.prevMouseY := by
  split <;> rfl

@[simp] theorem ite_proj_mouseIdleTime (c : Prop) [inst : Decidable c] (a b : Tracker) :
    (if c then a else b).mouseIdleTime = if c then a.mouseIdleTime else b.mouseIdleTime := by
  split <;> rfl

@[simp] theorem ite_proj_lastMouseMoveTime (c : Prop) [inst : Decidable c] (a b : Tracker) :
    (if c then a else b).lastMouseMoveTime = if c then a.lastMouseMoveTime else b.lastMouseMoveTime := by
  split <;> rfl

@[simp] theorem ite_proj_rushFactor (c : Prop) [inst : Decidable c] (a b : Tracker) :
    (if c then a else b).rushFactor = if c then a.rushFactor else b.rushFactor := by
  split <;> rfl

@[simp] theorem ite_proj_lingerFactor (c : Prop) [inst : Decidable c] (a b : Tracker) :
    (if c then a else b).lingerFactor = if c then a.lingerFactor else b.lingerFactor := by
  split <;> rfl

@[simp] theorem ite_proj_hesitationFactor (c : Prop) [inst : Decidable c] (a b : Tracker) :
    (if c then a else b).hesitationFactor = if c then a.hesitationFactor else b.hesitationFactor := by
  split <;> rfl

@[simp] theorem ite_proj_mouseIntensity (c : Prop) [inst : Decidable c] (a b : Tracker) :
    (if c then a else b).mouseIntensity = if c then a.mouseIntensity else b.mouseIntensity := by
  split <;> rfl

@[simp] theorem ite_proj_cursorDwelling (c : Prop) [inst : Decidable c] (a b : Tracker) :
    (if c then a else b).cursorDwelling = if c then a.cursorDwelling else b.cursorDwelling := by
  split <;> rfl

@[simp] theorem ite_proj_cursorDwellX (c : Prop) [inst : Decidable c] (a b : Tracker) :
    (if c then a else b).cursorDwellX = if c then a.cursorDwellX else b.cursorDwellX := by
  split <;> rfl

@[simp] theorem ite_proj_cursorDwellY (c : Prop) [inst : Decidable c] (a b : Tracker) :
    (if c then a else b).cursorDwellY = if c then a.cursorDwellY else b.cursorDwellY := by
  split <;> rfl

@[simp] theorem ite_proj_cursorDwellDuration (c : Prop) [inst : Decidable c] (a b : Tracker) :
    (if c then a else b).cursorDwellDuration = if c then a.cursorDwellDuration else b.cursorDwellDuration := by
  split <;> rfl

@[simp] theorem ite_proj_explorationRhythm (c : Prop) [inst : Decidable c] (a b : Tracker) :
    (if c then a else b).explorationRhythm = if c then a.explorationRhythm else b.explorationRhythm := by
  split <;> rfl

@[simp] theorem ite_proj_zoneGateLocked (c : Prop) [inst : Decidable c] (a b : Tracker) :
    (if c then a else b).zoneGateLocked = if c then a.zoneGateLocked else b.zoneGateLocked := by
  split <;> rfl

@[simp] theorem ite_proj_zoneGateTimer (c : Prop) [inst : Decidable c] (a b : Tracker) :
    (if c then a else b).zoneGateTimer = if c then a.zoneGateTimer else b.zoneGateTimer := by
  split <;> rfl

@[simp] theorem ite_proj_emotionalPhase (c : Prop) [inst : Decidable c] (a b : Tracker) :
    (if c then a else b).emotionalPhase = if c then a.emotionalPhase else b.emotionalPhase := by
  split <;> rfl

@[simp] theorem ite_proj_emotionalPhaseIndex (c : Prop) [inst : Decidable c] (a b : Tracker) :
    (if c then a else b).emotionalPhaseIndex = if c then a.emotionalPhaseIndex else b.emotionalPhaseIndex := by
  split <;> rfl

@[simp] theorem ite_proj_phaseProgress (c : Prop) [inst : Decidable c] (a b : Tracker) :
    (if c then a else b).phaseProgress = if c then a.phaseProgress else b.phaseProgress := by
  split <;> rfl

@[simp] theorem ite_proj_phaseAccumulator (c : Prop) [inst : Decidable c] (a b : Tracker) :
    (if c then a else b).phaseAccumulator = if c then a.phaseAccumulator else b.phaseAccumulator := by
  split <;> rfl

@[simp] theorem ite_proj_confrontationTriggered (c : Prop) [inst : Decidable c] (a b : Tracker) :
    (if c then a else b).confrontationTriggered = if c then a.confrontationTriggered else b.confrontationTriggered := by
  split <;> rfl

@[simp] theorem ite_proj_revelationTriggered (c : Prop) [inst : Decidable c] (a b : Tracker) :
    (if c then a else b).revelationTriggered = if c then a.revelationTriggered else b.revelationTriggered := by
  split <;> rfl

@[simp] theorem ite_proj_perceptionShiftActive (c : Prop) [inst : Decidable c] (a b : Tracker) :
    (if c then a else b).perceptionShiftActive = if c then a.perceptionShiftActive else b.perceptionShiftActive := by
  split <;> rfl

@[simp] theorem ite_proj_perceptionShiftTriggered (c : Prop) [inst : Decidable c] (a b : Tracker) :
    (if c then a else b).perceptionShiftTriggered = if c then a.perceptionShiftTriggered else b.perceptionShiftTriggered := by
  split <;> rfl

@[simp] theorem ite_proj_perceptionShiftProgress (c : Prop) [inst : Decidable c] (a b : Tracker) :
    (if c then a else b).perceptionShiftProgress = if c then a.perceptionShiftProgress else b.perceptionShiftProgress := by
  split <;> rfl

@[simp] theorem ite_proj_gravityInverted (c : Prop) [inst : Decidable c] (a b : Tracker) :
    (if c then a else b).gravityInverted = if c then a.gravityInverted else b.gravityInverted := by
  split <;> rfl

@[simp] theorem ite_proj_timeScale (c : Prop) [inst : Decidable c] (a b : Tracker) :
    (if c then a else b).timeScale = if c then a.timeScale else b.timeScale := by
  split <;> rfl

@[simp] theorem ite_proj_guideFishUnlocked (c : Prop) [inst : Decidable c] (a b : Tracker) :
    (if c then a else b).guideFishUnlocked = if c then a.guideFishUnlocked else b.guideFishUnlocked := by
  split <;> rfl

@[simp] theorem ite_proj_dataPanelsExpanded (c : Prop) [inst : Decidable c] (a b : Tracker) :
    (if c then a else b).dataPanelsExpanded = if c then a.dataPanelsExpanded else b.dataPanelsExpanded := by
  split <;> rfl

@[simp] theorem ite_proj_beamResonance (c : Prop) [inst : Decidable c] (a b : Tracker) :
    (if c then a else b).beamResonance = if c then a.beamResonance else b.beamResonance := by
  split <;> rfl

@[simp] theorem ite_proj_guideFishLingerAccum (c : Prop) [inst : Decidable c] (a b : Tracker) :
    (if c then a else b).guideFishLingerAccum = if c then a.guideFishLingerAccum else b.guideFishLingerAccum := by
  split <;> rfl

@[simp] theorem ite_proj_scrollHistory (c : Prop) [inst : Decidable c] (a b : Tracker) :
    (if c then a else b).scrollHistory = if c then a.scrollHistory else b.scrollHistory := by
  split <;> rfl

@[simp] theorem ite_proj_scrollHistoryMaxAge (c : Prop) [inst : Decidable c] (a b : Tracker) :
    (if c then a else b).scrollHistoryMaxAge = if c then a.scrollHistoryMaxAge else b.scrollHistoryMaxAge := by
  split <;> rfl

@[simp] theorem ite_proj_startTime (c : Prop) [inst : Decidable c] (a b : Tracker) :
    (if c then a else b).startTime = if c then a.startTime else b.startTime := by
  split <;> rfl

/-! Fields of the tracker that `_updateEmotionalPhase` leaves untouched. -/

@[simp] theorem uep_scrollY (s : Tracker) (d e : ℚ) :
    (updateEmotionalPhase s d e).1.scrollY = s.scrollY := by
  simp [updateEmotionalPhase, apply_ite Prod.fst]

@[simp] theorem uep_prevScrollY (s : Tracker) (d e : ℚ) :
    (updateEmotionalPhase s d e).1.prevScrollY = s.prevScrollY := by
  simp [updateEmotionalPhase, apply_ite Prod.fst]

@[simp] theorem uep_scrollDelta (s : Tracker) (d e : ℚ) :
    (updateEmotionalPhase s d e).1.scrollDelta = s.scrollDelta := by
  simp [updateEmotionalPhase, apply_ite Prod.fst]

@[simp] theorem uep_scrollVelocity (s : Tracker) (d e : ℚ) :
    (updateEmotionalPhase s d e).1.scrollVelocity = s.scrollVelocity := by
  simp [updateEmotionalPhase, apply_ite Prod.fst]

@[simp] theorem uep_scrollAccel (s : Tracker) (d e : ℚ) :
    (updateEmotionalPhase s d e).1.scrollAccel = s.scrollAccel := by
  simp [updateEmotionalPhase, apply_ite Prod.fst]

@[simp] theorem uep_prevScrollVelocity (s : Tracker) (d e : ℚ) :
    (updateEmotionalPhase s d e).1.prevScrollVelocity = s.prevScrollVelocity := by
  simp [updateEmotionalPhase, apply_ite Prod.fst]

@[simp] theorem uep_lastScrollTime (s : Tracker) (d e : ℚ) :
    (updateEmotionalPhase s d e).1.lastScrollTime = s.lastScrollTime := by
  simp [updateEmotionalPhase, apply_ite Prod.fst]

@[simp] theorem uep_scrollDirectionChanges (s : Tracker) (d e : ℚ) :
    (updateEmotionalPhase s d e).1.scrollDirectionChanges = s.scrollDirectionChanges := by
  simp [updateEmotionalPhase, apply_ite Prod.fst]

@[simp] theorem uep_lastScrollDirection (s : Tracker) (d e : ℚ) :
    (updateEmotionalPhase s d e).1.lastScrollDirection = s.lastScrollDirection := by
  simp [updateEmotionalPhase, apply_ite Prod.fst]

@[simp] theorem uep_directionChangeDecay (s : Tracker) (d e : ℚ) :
    (updateEmotionalPhase s d e).1.directionChangeDecay = s.directionChangeDecay := by
  simp [updateEmotionalPhase, apply_ite Prod.fst]

@[simp] theorem uep_mouseX (s : Tracker) (d e : ℚ) :
    (updateEmotionalPhase s d e).1.mouseX = s.mouseX := by
  simp [updateEmotionalPhase, apply_ite Prod.fst]

@[simp] theorem uep_mouseY (s : Tracker) (d e : ℚ) :
    (updateEmotionalPhase s d e).1.mouseY = s.mouseY := by
  simp [updateEmotionalPhase, apply_ite Prod.fst]

@[simp] theorem uep_mouseVelocity (s : Tracker) (d e : ℚ) :
    (updateEmotionalPhase s d e).1.mouseVelocity = s.mouseVelocity := by
  simp [updateEmotionalPhase, apply_ite Prod.fst]

@[simp] theorem uep_prevMouseX (s : Tracker) (d e : ℚ) :
    (updateEmotionalPhase s d e).1.prevMouseX = s.prevMouseX := by
  simp [updateEmotionalPhase, apply_ite Prod.fst]

@[simp] theorem uep_prevMouseY (s : Tracker) (d e : ℚ) :
    (updateEmotionalPhase s d e).1.prevMouseY = s.prevMouseY := by
  simp [updateEmotionalPhase, apply_ite Prod.fst]

@[simp] theorem uep_mouseIdleTime (s : Tracker) (d e : ℚ) :
    (updateEmotionalPhase s d e).1.mouseIdleTime = s.mouseIdleTime := by
  simp [updateEmotionalPhase, apply_ite Prod.fst]

@[simp] theorem uep_lastMouseMoveTime (s : Tracker) (d e : ℚ) :
    (updateEmotionalPhase s d e).1.lastMouseMoveTime = s.lastMouseMoveTime := by
  simp [updateEmotionalPhase, apply_ite Prod.fst]

@[simp] theorem uep_rushFactor (s : Tracker) (d e : ℚ) :
    (updateEmotionalPhase s d e).1.rushFactor = s.rushFactor := by
  simp [updateEmotionalPhase, apply_ite Prod.fst]

@[simp] theorem uep_lingerFactor (s : Tracker) (d e : ℚ) :
    (updateEmotionalPhase s d e).1.lingerFactor = s.lingerFactor := by
  simp [updateEmotionalPhase, apply_ite Prod.fst]

@[simp] theorem uep_hesitationFactor (s : Tracker) (d e : ℚ) :
    (updateEmotionalPhase s d e).1.hesitationFactor = s.hesitationFactor := by
  simp [updateEmotionalPhase, apply_ite Prod.fst]

@[simp] theorem uep_mouseIntensity (s : Tracker) (d e : ℚ) :
    (updateEmotionalPhase s d e).1.mouseIntensity = s.mouseIntensity := by
  simp [updateEmotionalPhase, apply_ite Prod.fst]

@[simp] theorem uep_cursorDwelling (s : Tracker) (d e : ℚ) :
    (updateEmotionalPhase s d e).1.cursorDwelling = s.cursorDwelling := by
  simp [updateEmotionalPhase, apply_ite Prod.fst]

@[simp] theorem uep_cursorDwellX (s : Tracker) (d e : ℚ) :
    (updateEmotionalPhase s d e).1.cursorDwellX = s.cursorDwellX := by
  simp [updateEmotionalPhase, apply_ite Prod.fst]

@[simp] theorem uep_cursorDwellY (s : Tracker) (d e : ℚ) :
    (updateEmotionalPhase s d e).1.cursorDwellY = s.cursorDwellY := by
  simp [updateEmotionalPhase, apply_ite Prod.fst]

@[simp] theorem uep_cursorDwellDuration (s : Tracker) (d e : ℚ) :
    (updateEmotionalPhase s d e).1.cursorDwellDuration = s.cursorDwellDuration := by
  simp [updateEmotionalPhase, apply_ite Prod.fst]

@[simp] theorem uep_explorationRhythm (s : Tracker) (d e : ℚ) :
    (updateEmotionalPhase s d e).1.explorationRhythm = s.explorationRhythm := by
  simp [updateEmotionalPhase, apply_ite Prod.fst]

@[simp] theorem uep_zoneGateLocked (s : Tracker) (d e : ℚ) :
    (updateEmotionalPhase s d e).1.zoneGateLocked = s.zoneGateLocked := by
  simp [updateEmotionalPhase, apply_ite Prod.fst]

@[simp] theorem uep_zoneGateTimer (s : Tracker) (d e : ℚ) :
    (updateEmotionalPhase s d e).1.zoneGateTimer = s.zoneGateTimer := by
  simp [updateEmotionalPhase, apply_ite Prod.fst]

@[simp] theorem uep_perceptionShiftActive (s : Tracker) (d e : ℚ) :
    (updateEmotionalPhase s d e).1.perceptionShiftActive = s.perceptionShiftActive := by
  simp [updateEmotionalPhase, apply_ite Prod.fst]

@[simp] theorem uep_perceptionShiftTriggered (s : Tracker) (d e : ℚ) :
    (updateEmotionalPhase s d e).1.perceptionShiftTriggered = s.perceptionShiftTriggered := by
  simp [updateEmotionalPhase, apply_ite Prod.fst]

@[simp] theorem uep_perceptionShiftProgress (s : Tracker) (d e : ℚ) :
    (updateEmotionalPhase s d e).1.perceptionShiftProgress = s.perceptionShiftProgress := by
  simp [updateEmotionalPhase, apply_ite Prod.fst]

@[simp] theorem uep_gravityInverted (s : Tracker) (d e : ℚ) :
    (updateEmotionalPhase s d e).1.gravityInverted = s.gravityInverted := by
  simp [updateEmotionalPhase, apply_ite Prod.fst]

@[simp] theorem uep_timeScale (s : Tracker) (d e : ℚ) :
    (updateEmotionalPhase s d e).1.timeScale = s.timeScale := by
  simp [updateEmotionalPhase, apply_ite Prod.fst]

@[simp] theorem uep_guideFishUnlocked (s : Tracker) (d e : ℚ) :
    (updateEmotionalPhase s d e).1.guideFishUnlocked = s.guideFishUnlocked := by
  simp [updateEmotionalPhase, apply_ite Prod.fst]

@[simp] theorem uep_dataPanelsExpanded (s : Tracker) (d e : ℚ) :
    (updateEmotionalPhase s d e).1.dataPanelsExpanded = s.dataPanelsExpanded := by
  simp [updateEmotionalPhase, apply_ite Prod.fst]

@[simp] theorem uep_beamResonance (s : Tracker) (d e : ℚ) :
    (updateEmotionalPhase s d e).1.beamResonance = s.beamResonance := by
  simp [updateEmotionalPhase, apply_ite Prod.fst]

@[simp] theorem uep_guideFishLingerAccum (s : Tracker) (d e : ℚ) :
    (updateEmotionalPhase s d e).1.guideFishLingerAccum = s.guideFishLingerAccum := by
  simp [updateEmotionalPhase, apply_ite Prod.fst]

@[simp] theorem uep_scrollHistory (s : Tracker) (d e : ℚ) :
    (updateEmotionalPhase s d e).1.scrollHistory = s.scrollHistory := by
  simp [updateEmotionalPhase, apply_ite Prod.fst]

@[simp] theorem uep_scrollHistoryMaxAge (s : Tracker) (d e : ℚ) :
    (updateEmotionalPhase s d e).1.scrollHistoryMaxAge = s.scrollHistoryMaxAge := by
  simp [updateEmotionalPhase, apply_ite Prod.fst]

@[simp] theorem uep_startTime (s : Tracker) (d e : ℚ) :
    (updateEmotionalPhase s d e).1.startTime = s.startTime := by
  simp [updateEmotionalPhase, apply_ite Prod.fst]

/-! Fields of the tracker that the unlock step leaves untouched. -/

@[simp] theorem unlock_scrollY (s : Tracker) (d e : ℚ) :
    (unlockStep s d e).scrollY = s.scrollY := by
  simp [unlockStep]

@[simp] theorem unlock_prevScrollY (s : Tracker) (d e : ℚ) :
    (unlockStep s d e).prevScrollY = s.prevScrollY := by
  simp [unlockStep]

@[simp] theorem unlock_scrollDelta (s : Tracker) (d e : ℚ) :
    (unlockStep s d e).scrollDelta = s.scrollDelta := by
  simp [unlockStep]

@[simp] theorem unlock_scrollVelocity (s : Tracker) (d e : ℚ) :
    (unlockStep s d e).scrollVelocity = s.scrollVelocity := by
  simp [unlockStep]

@[simp] theorem unlock_scrollAccel (s : Tracker) (d e : ℚ) :
    (unlockStep s d e).scrollAccel = s.scrollAccel := by
  simp [unlockStep]

@[simp] theorem unlock_prevScrollVelocity (s : Tracker) (d e : ℚ) :
    (unlockStep s d e).prevScrollVelocity = s.prevScrollVelocity := by
  simp [unlockStep]

@[simp] theorem unlock_lastScrollTime (s : Tracker) (d e : ℚ) :
    (unlockStep s d e).lastScrollTime = s.lastScrollTime := by
  simp [unlockStep]

@[simp] theorem unlock_scrollDirectionChanges (s : Tracker) (d e : ℚ) :
    (unlockStep s d e).scrollDirectionChanges = s.scrollDirectionChanges := by
  simp [unlockStep]

@[simp] theorem unlock_lastScrollDirection (s : Tracker) (d e : ℚ) :
    (unlockStep s d e).lastScrollDirection = s.lastScrollDirection := by
  simp [unlockStep]

@[simp] theorem unlock_directionChangeDecay (s : Tracker) (d e : ℚ) :
    (unlockStep s d e).directionChangeDecay = s.directionChangeDecay := by
  simp [unlockStep]

@[simp] theorem unlock_mouseX (s : Tracker) (d e : ℚ) :
    (unlockStep s d e).mouseX = s.mouseX := by
  simp [unlockStep]

@[simp] theorem unlock_mouseY (s : Tracker) (d e : ℚ) :
    (unlockStep s d e).mouseY = s.mouseY := by
  simp [unlockStep]

@[simp] theorem unlock_mouseVelocity (s : Tracker) (d e : ℚ) :
    (unlockStep s d e).mouseVelocity = s.mouseVelocity := by
  simp [unlockStep]

@[simp] theorem unlock_prevMouseX (s : Tracker) (d e : ℚ) :
    (unlockStep s d e).prevMouseX = s.prevMouseX := by
  simp [unlockStep]

@[simp] theorem unlock_prevMouseY (s : Tracker) (d e : ℚ) :
    (unlockStep s d e).prevMouseY = s.prevMouseY := by
  simp [unlockStep]

@[simp] theorem unlock_mouseIdleTime (s : Tracker) (d e : ℚ) :
    (unlockStep s d e).mouseIdleTime = s.mouseIdleTime := by
  simp [unlockStep]

@[simp] theorem unlock_lastMouseMoveTime (s : Tracker) (d e : ℚ) :
    (unlockStep s d e).lastMouseMoveTime = s.lastMouseMoveTime := by
  simp [unlockStep]

@[simp] theorem unlock_rushFactor (s : Tracker) (d e : ℚ) :
    (unlockStep s d e).rushFactor = s.rushFactor := by
  simp [unlockStep]

@[simp] theorem unlock_lingerFactor (s : Tracker) (d e : ℚ) :
    (unlockStep s d e).lingerFactor = s.lingerFactor := by
  simp [unlockStep]

@[simp] theorem unlock_hesitationFactor (s : Tracker) (d e : ℚ) :
    (unlockStep s d e).hesitationFactor = s.hesitationFactor := by
  simp [unlockStep]

@[simp] theorem unlock_mouseIntensity (s : Tracker) (d e : ℚ) :
    (unlockStep s d e).mouseIntensity = s.mouseIntensity := by
  simp [unlockStep]

@[simp] theorem unlock_cursorDwelling (s : Tracker) (d e : ℚ) :
    (unlockStep s d e).cursorDwelling = s.cursorDwelling := by
  simp [unlockStep]

@[simp] theorem unlock_cursorDwellX (s : Tracker) (d e : ℚ) :
    (unlockStep s d e).cursorDwellX = s.cursorDwellX := by
  simp [unlockStep]

@[simp] theorem unlock_cursorDwellY (s : Tracker) (d e : ℚ) :
    (unlockStep s d e).cursorDwellY = s.cursorDwellY := by
  simp [unlockStep]

@[simp] theorem unlock_cursorDwellDuration (s : Tracker) (d e : ℚ) :
    (unlockStep s d e).cursorDwellDuration = s.cursorDwellDuration := by
  simp [unlockStep]

@[simp] theorem unlock_explorationRhythm (s : Tracker) (d e : ℚ) :
    (unlockStep s d e).explorationRhythm = s.explorationRhythm := by
  simp [unlockStep]

@[simp] theorem unlock_zoneGateLocked (s : Tracker) (d e : ℚ) :
    (unlockStep s d e).zoneGateLocked = s.zoneGateLocked := by
  simp [unlockStep]

@[simp] theorem unlock_zoneGateTimer (s : Tracker) (d e : ℚ) :
    (unlockStep s d e).zoneGateTimer = s.zoneGateTimer := by
  simp [unlockStep]

@[simp] theorem unlock_emotionalPhase (s : Tracker) (d e : ℚ) :
    (unlockStep s d e).emotionalPhase = s.emotionalPhase := by
  simp [unlockStep]

@[simp] theorem unlock_emotionalPhaseIndex (s : Tracker) (d e : ℚ) :
    (unlockStep s d e).emotionalPhaseIndex = s.emotionalPhaseIndex := by
  simp [unlockStep]

@[simp] theorem unlock_phaseProgress (s : Tracker) (d e : ℚ) :
    (unlockStep s d e).phaseProgress = s.phaseProgress := by
  simp [unlockStep]

@[simp] theorem unlock_phaseAccumulator (s : Tracker) (d e : ℚ) :
    (unlockStep s d e).phaseAccumulator = s.phaseAccumulator := by
  simp [unlockStep]

@[simp] theorem unlock_confrontationTriggered (s : Tracker) (d e : ℚ) :
    (unlockStep s d e).confrontationTriggered = s.confrontationTriggered := by
  simp [unlockStep]

@[simp] theorem unlock_revelationTriggered (s : Tracker) (d e : ℚ) :
    (unlockStep s d e).revelationTriggered = s.revelationTriggered := by
  simp [unlockStep]

@[simp] theorem unlock_perceptionShiftActive (s : Tracker) (d e : ℚ) :
    (unlockStep s d e).perceptionShiftActive = s.perceptionShiftActive := by
  simp [unlockStep]

@[simp] theorem unlock_perceptionShiftTriggered (s : Tracker) (d e : ℚ) :
    (unlockStep s d e).perceptionShiftTriggered = s.perceptionShiftTriggered := by
  simp [unlockStep]

@[simp] theorem unlock_perceptionShiftProgress (s : Tracker) (d e : ℚ) :
    (unlockStep s d e).perceptionShiftProgress = s.perceptionShiftProgress := by
  simp [unlockStep]

@[simp] theorem unlock_gravityInverted (s : Tracker) (d e : ℚ) :
    (unlockStep s d e).gravityInverted = s.gravityInverted := by
  simp [unlockStep]

@[simp] theorem unlock_timeScale (s : Tracker) (d e : ℚ) :
    (unlockStep s d e).timeScale = s.timeScale := by
  simp [unlockStep]

@[simp] theorem unlock_scrollHistory (s : Tracker) (d e : ℚ) :
    (unlockStep s d e).scrollHistory = s.scrollHistory := by
  simp [unlockStep]

@[simp] theorem unlock_scrollHistoryMaxAge (s : Tracker) (d e : ℚ) :
    (unlockStep s d e).scrollHistoryMaxAge = s.scrollHistoryMaxAge := by
  simp [unlockStep]

@[simp] theorem unlock_startTime (s : Tracker) (d e : ℚ) :
    (unlockStep s d e).startTime = s.startTime := by
  simp [unlockStep]

/-! Fields of the tracker that `synthStep` leaves untouched. -/

@[simp] theorem synth_scrollY (s : Tracker) (d now : ℚ) :
    (synthStep s d now).scrollY = s.scrollY := by
  simp [synthStep]

@[simp] theorem synth_prevScrollY (s : Tracker) (d now : ℚ) :
    (synthStep s d now).prevScrollY = s.prevScrollY := by
  simp [synthStep]

@[simp] theorem synth_scrollDelta (s : Tracker) (d now : ℚ) :
    (synthStep s d now).scrollDelta = s.scrollDelta := by
  simp [synthStep]

@[simp] theorem synth_scrollVelocity (s : Tracker) (d now : ℚ) :
    (synthStep s d now).scrollVelocity = s.scrollVelocity := by
  simp [synthStep]

@[simp] theorem synth_scrollAccel (s : Tracker) (d now : ℚ) :
    (synthStep s d now).scrollAccel = s.scrollAccel := by
  simp [synthStep]

@[simp] theorem synth_prevScrollVelocity (s : Tracker) (d now : ℚ) :
    (synthStep s d now).prevScrollVelocity = s.prevScrollVelocity := by
  simp [synthStep]

@[simp] theorem synth_lastScrollTime (s : Tracker) (d now : ℚ) :
    (synthStep s d now).lastScrollTime = s.lastScrollTime := by
  simp [synthStep]

@[simp] theorem synth_lastScrollDirection (s : Tracker) (d now : ℚ) :
    (synthStep s d now).lastScrollDirection = s.lastScrollDirection := by
  simp [synthStep]

@[simp] theorem synth_mouseX (s : Tracker) (d now : ℚ) :
    (synthStep s d now).mouseX = s.mouseX := by
  simp [synthStep]

@[simp] theorem synth_mouseY (s : Tracker) (d now : ℚ) :
    (synthStep s d now).mouseY = s.mouseY := by
  simp [synthStep]

@[simp] theorem synth_prevMouseX (s : Tracker) (d now : ℚ) :
    (synthStep s d now).prevMouseX = s.prevMouseX := by
  simp [synthStep]

@[simp] theorem synth_prevMouseY (s : Tracker) (d now : ℚ) :
    (synthStep s d now).prevMouseY = s.prevMouseY := by
  simp [synthStep]

@[simp] theorem synth_lastMouseMoveTime (s : Tracker) (d now : ℚ) :
    (synthStep s d now).lastMouseMoveTime = s.lastMouseMoveTime := by
  simp [synthStep]

@[simp] theorem synth_emotionalPhase (s : Tracker) (d now : ℚ) :
    (synthStep s d now).emotionalPhase = s.emotionalPhase := by
  simp [synthStep]

@[simp] theorem synth_emotionalPhaseIndex (s : Tracker) (d now : ℚ) :
    (synthStep s d now).emotionalPhaseIndex = s.emotionalPhaseIndex := by
  simp [synthStep]

@[simp] theorem synth_phaseProgress (s : Tracker) (d now : ℚ) :
    (synthStep s d now).phaseProgress = s.phaseProgress := by
  simp [synthStep]

@[simp] theorem synth_phaseAccumulator (s : Tracker) (d now : ℚ) :
    (synthStep s d now).phaseAccumulator = s.phaseAccumulator := by
  simp [synthStep]

@[simp] theorem synth_confrontationTriggered (s : Tracker) (d now : ℚ) :
    (synthStep s d now).confrontationTriggered = s.confrontationTriggered := by
  simp [synthStep]

@[simp] theorem synth_revelationTriggered (s : Tracker) (d now : ℚ) :
    (synthStep s d now).revelationTriggered = s.revelationTriggered := by
  simp [synthStep]

@[simp] theorem synth_perceptionShiftActive (s : Tracker) (d now : ℚ) :
    (synthStep s d now).perceptionShiftActive = s.perceptionShiftActive := by
  simp [synthStep]

@[simp] theorem synth_perceptionShiftTriggered (s : Tracker) (d now : ℚ) :
    (synthStep s d now).perceptionShiftTriggered = s.perceptionShiftTriggered := by
  simp [synthStep]

@[simp] theorem synth_perceptionShiftProgress (s : Tracker) (d now : ℚ) :
    (synthStep s d now).perceptionShiftProgress = s.perceptionShiftProgress := by
  simp [synthStep]

@[simp] theorem synth_gravityInverted (s : Tracker) (d now : ℚ) :
    (synthStep s d now).gravityInverted = s.gravityInverted := by
  simp [synthStep]

@[simp] theorem synth_guideFishUnlocked (s : Tracker) (d now : ℚ) :
    (synthStep s d now).guideFishUnlocked = s.guideFishUnlocked := by
  simp [synthStep]

@[simp] theorem synth_dataPanelsExpanded (s : Tracker) (d now : ℚ) :
    (synthStep s d now).dataPanelsExpanded = s.dataPanelsExpanded := by
  simp [synthStep]

@[simp] theorem synth_beamResonance (s : Tracker) (d now : ℚ) :
    (synthStep s d now).beamResonance = s.beamResonance := by
  simp [synthStep]

@[simp] theorem synth_guideFishLingerAccum (s : Tracker) (d now : ℚ) :
    (synthStep s d now).guideFishLingerAccum = s.guideFishLingerAccum := by
  simp [synthStep]

@[simp] theorem synth_scrollHistory (s : Tracker) (d now : ℚ) :
    (synthStep s d now).scrollHistory = s.scrollHistory := by
  simp [synthStep]

@[simp] theorem synth_scrollHistoryMaxAge (s : Tracker) (d now : ℚ) :
    (synthStep s d now).scrollHistoryMaxAge = s.scrollHistoryMaxAge := by
  simp [synthStep]

@[simp] theorem synth_startTime (s : Tracker) (d now : ℚ) :
    (synthStep s d now).startTime = s.startTime := by
  simp [synthStep]



/-! Characterisations of the fields `_updateEmotionalPhase` does change, in
terms of the advance condition `advances`. -/

@[simp] theorem uep_emotionalPhaseIndex (s : Tracker) (d e : ℚ) :
    (updateEmotionalPhase s d e).1.emotionalPhaseIndex =
      if advances s d then s.emotionalPhaseIndex + 1 else s.emotionalPhaseIndex := by
  unfold updateEmotionalPhase
  simp only [advances, phaseAccNext]
  split_ifs <;> simp_all

@[simp] theorem uep_phaseAccumulator (s : Tracker) (d e : ℚ) :
    (updateEmotionalPhase s d e).1.phaseAccumulator =
      if advances s d then 0 else phaseAccNext s d := by
  unfold updateEmotionalPhase
  simp only [advances, phaseAccNext]
  split_ifs <;> simp_all

@[simp] theorem uep_phaseProgress (s : Tracker) (d e : ℚ) :
    (updateEmotionalPhase s d e).1.phaseProgress =
      if advances s d then 0 else min (phaseAccNext s d) 1 := by
  unfold updateEmotionalPhase
  simp only [advances, phaseAccNext]
  split_ifs <;> simp_all

@[simp] theorem uep_emotionalPhase (s : Tracker) (d e : ℚ) :
    (updateEmotionalPhase s d e).1.emotionalPhase =
      if advances s d then phases.getD (s.emotionalPhaseIndex + 1) ""
      else s.emotionalPhase := by
  unfold updateEmotionalPhase
  simp only [advances, phaseAccNext]
  split_ifs <;> simp_all

@[simp] theorem uep_event (s : Tracker) (d e : ℚ) :
    (updateEmotionalPhase s d e).2 =
      if advances s d then
        some ⟨phases.getD (s.emotionalPhaseIndex + 1) "", s.emotionalPhaseIndex + 1⟩
      else none := by
  unfold updateEmotionalPhase
  simp only [advances, phaseAccNext]
  split_ifs <;> simp_all [apply_ite Prod.snd]

@[simp] theorem uep_confrontationTriggered (s : Tracker) (d e : ℚ) :
    (updateEmotionalPhase s d e).1.confrontationTriggered =
      (s.confrontationTriggered || decide (s.emotionalPhaseIndex = 2)) := by
  unfold updateEmotionalPhase
  split_ifs <;> simp_all [apply_ite Prod.fst]

@[simp] theorem uep_revelationTriggered (s : Tracker) (d e : ℚ) :
    (updateEmotionalPhase s d e).1.revelationTriggered =
      (s.revelationTriggered || decide (s.emotionalPhaseIndex = 3)) := by
  unfold updateEmotionalPhase
  split_ifs <;> simp_all [apply_ite Prod.fst, Bool.or_comm]

/-! Projections of the full `update` step. -/

@[simp] theorem update_scrollY (s : Tracker) (d now : ℚ) :
    (update s d now).1.scrollY = s.scrollY := by
  simp [update, synthStep]

@[simp] theorem update_prevScrollY (s : Tracker) (d now : ℚ) :
    (update s d now).1.prevScrollY = s.prevScrollY := by
  simp [update, synthStep]

@[simp] theorem update_scrollDelta (s : Tracker) (d now : ℚ) :
    (update s d now).1.scrollDelta = s.scrollDelta := by
  simp [update, synthStep]

@[simp] theorem update_scrollVelocity (s : Tracker) (d now : ℚ) :
    (update s d now).1.scrollVelocity = s.scrollVelocity := by
  simp [update, synthStep]

@[simp] theorem update_scrollAccel (s : Tracker) (d now : ℚ) :
    (update s d now).1.scrollAccel = s.scrollAccel := by
  simp [update, synthStep]

@[simp] theorem update_prevScrollVelocity (s : Tracker) (d now : ℚ) :
    (update s d now).1.prevScrollVelocity = s.prevScrollVelocity := by
  simp [update, synthStep]

@[simp] theorem update_lastScrollTime (s : Tracker) (d now : ℚ) :
    (update s d now).1.lastScrollTime = s.lastScrollTime := by
  simp [update, synthStep]

@[simp] theorem update_lastScrollDirection (s : Tracker) (d now : ℚ) :
    (update s d now).1.lastScrollDirection = s.lastScrollDirection := by
  simp [update, synthStep]

@[simp] theorem update_mouseX (s : Tracker) (d now : ℚ) :
    (update s d now).1.mouseX = s.mouseX := by
  simp [update, synthStep]

@[simp] theorem update_mouseY (s : Tracker) (d now : ℚ) :
    (update s d now).1.mouseY = s.mouseY := by
  simp [update, synthStep]

@[simp] theorem update_prevMouseX (s : Tracker) (d now : ℚ) :
    (update s d now).1.prevMouseX = s.prevMouseX := by
  simp [update, synthStep]

@[simp] theorem update_prevMouseY (s : Tracker) (d now : ℚ) :
    (update s d now).1.prevMouseY = s.prevMouseY := by
  simp [update, synthStep]

@[simp] theorem update_lastMouseMoveTime (s : Tracker) (d now : ℚ) :
    (update s d now).1.lastMouseMoveTime = s.lastMouseMoveTime := by
  simp [update, synthStep]

@[simp] theorem update_perceptionShiftActive (s : Tracker) (d now : ℚ) :
    (update s d now).1.perceptionShiftActive = s.perceptionShiftActive := by
  simp [update, synthStep]

@[simp] theorem update_perceptionShiftTriggered (s : Tracker) (d now : ℚ) :
    (update s d now).1.perceptionShiftTriggered = s.perceptionShiftTriggered := by
  simp [update, synthStep]

@[simp] theorem update_perceptionShiftProgress (s : Tracker) (d now : ℚ) :
    (update s d now).1.perceptionShiftProgress = s.perceptionShiftProgress := by
  simp [update, synthStep]

@[simp] theorem update_gravityInverted (s : Tracker) (d now : ℚ) :
    (update s d now).1.gravityInverted = s.gravityInverted := by
  simp [update, synthStep]

@[simp] theorem update_scrollHistory (s : Tracker) (d now : ℚ) :
    (update s d now).1.scrollHistory = s.scrollHistory := by
  simp [update, synthStep]

@[simp] theorem update_scrollHistoryMaxAge (s : Tracker) (d now : ℚ) :
    (update s d now).1.scrollHistoryMaxAge = s.scrollHistoryMaxAge := by
  simp [update, synthStep]

@[simp] theorem update_startTime (s : Tracker) (d now : ℚ) :
    (update s d now).1.startTime = s.startTime := by
  simp [update, synthStep]


/-! Characterisations of the unlock-step fields. -/

@[simp] theorem unlock_guideFishUnlocked (s : Tracker) (d e : ℚ) :
    (unlockStep s d e).guideFishUnlocked =
      (s.guideFishUnlocked ||
        decide (s.lingerFactor > 0.8 ∧ e > 20 ∧ s.guideFishLingerAccum + d > 4.0)) := by
  unfold unlockStep
  split_ifs <;> cases hu : s.guideFishUnlocked <;> simp_all [Bool.or_comm] <;> tauto

@[simp] theorem unlock_guideFishLingerAccum (s : Tracker) (d e : ℚ) :
    (unlockStep s d e).guideFishLingerAccum =
      if ¬s.guideFishUnlocked ∧ s.lingerFactor > 0.8 ∧ e > 20 then
        s.guideFishLingerAccum + d
      else s.guideFishLingerAccum := by
  unfold unlockStep
  split_ifs <;> simp_all

@[simp] theorem unlock_dataPanelsExpanded (s : Tracker) (d e : ℚ) :
    (unlockStep s d e).dataPanelsExpanded =
      (s.dataPanelsExpanded ||
        decide (s.cursorDwelling = true ∧ s.cursorDwellDuration > 2.0)) := by
  unfold unlockStep
  split_ifs <;> simp_all [Bool.or_comm]

@[simp] theorem unlock_beamResonance (s : Tracker) (d e : ℚ) :
    (unlockStep s d e).beamResonance =
      if (s.mouseX - 0.5) ^ 2 + (s.mouseY - 0.5) ^ 2 < 0.09 ∧ s.mouseIntensity > 0.2 then
        min 1 (s.beamResonance + d * 0.3)
      else max 0 (s.beamResonance - d * 0.1) := by
  unfold unlockStep
  split_ifs <;> simp_all


@[simp] theorem update_rushFactor (s : Tracker) (d now : ℚ) :
    (update s d now).1.rushFactor = rushNext s := by
  simp [update, synthStep]

@[simp] theorem update_lingerFactor (s : Tracker) (d now : ℚ) :
    (update s d now).1.lingerFactor = lingerNext s now := by
  simp [update, synthStep]

@[simp] theorem update_hesitationFactor (s : Tracker) (d now : ℚ) :
    (update s d now).1.hesitationFactor = hesitationNext s := by
  simp [update, synthStep]

@[simp] theorem update_directionChangeDecay (s : Tracker) (d now : ℚ) :
    (update s d now).1.directionChangeDecay = dcdNext s := by
  simp [update, synthStep]

@[simp] theorem update_scrollDirectionChanges (s : Tracker) (d now : ℚ) :
    (update s d now).1.scrollDirectionChanges = s.scrollDirectionChanges * 0.95 := by
  simp [update, synthStep]

@[simp] theorem update_mouseIdleTime (s : Tracker) (d now : ℚ) :
    (update s d now).1.mouseIdleTime = s.mouseIdleTime + d := by
  simp [update, synthStep]

@[simp] theorem update_mouseIntensity (s : Tracker) (d now : ℚ) :
    (update s d now).1.mouseIntensity = mouseIntensityNext s := by
  simp [update, synthStep]

@[simp] theorem update_mouseVelocity (s : Tracker) (d now : ℚ) :
    (update s d now).1.mouseVelocity = s.mouseVelocity * 0.9 := by
  simp [update, synthStep]

@[simp] theorem update_explorationRhythm (s : Tracker) (d now : ℚ) :
    (update s d now).1.explorationRhythm = rhythmNext s now := by
  simp [update, synthStep]

@[simp] theorem update_timeScale (s : Tracker) (d now : ℚ) :
    (update s d now).1.timeScale = timeScaleNext s now := by
  simp [update, synthStep]

@[simp] theorem update_cursorDwelling (s : Tracker) (d now : ℚ) :
    (update s d now).1.cursorDwelling = decide (s.mouseIdleTime + d > 1.2) := by
  simp [update, synthStep]

@[simp] theorem update_cursorDwellX (s : Tracker) (d now : ℚ) :
    (update s d now).1.cursorDwellX =
      if s.mouseIdleTime + d > 1.2 then s.mouseX else s.cursorDwellX := by
  simp [update, synthStep]

@[simp] theorem update_cursorDwellY (s : Tracker) (d now : ℚ) :
    (update s d now).1.cursorDwellY =
      if s.mouseIdleTime + d > 1.2 then s.mouseY else s.cursorDwellY := by
  simp [update, synthStep]

@[simp] theorem update_cursorDwellDuration (s : Tracker) (d now : ℚ) :
    (update s d now).1.cursorDwellDuration =
      if s.mouseIdleTime + d > 1.2 then s.mouseIdleTime + d - 1.2 else 0 := by
  simp [update, synthStep]

@[simp] theorem update_zoneGateLocked (s : Tracker) (d now : ℚ) :
    (update s d now).1.zoneGateLocked =
      (if s.zoneGateLocked then
        if unlockCond s now then
          if s.zoneGateTimer + d > 0.4 then false else true
        else true
      else s.zoneGateLocked) := by
  simp [update, synthStep]

@[simp] theorem update_zoneGateTimer (s : Tracker) (d now : ℚ) :
    (update s d now).1.zoneGateTimer =
      (if s.zoneGateLocked then
        if unlockCond s now then
          if s.zoneGateTimer + d > 0.4 then 0 else s.zoneGateTimer + d
        else 0
      else s.zoneGateTimer) := by
  simp [update, synthStep]

@[simp] theorem update_emotionalPhaseIndex (s : Tracker) (d now : ℚ) :
    (update s d now).1.emotionalPhaseIndex =
      if advances (synthStep s d now) d then s.emotionalPhaseIndex + 1
      else s.emotionalPhaseIndex := by
  simp [update]

@[simp] theorem update_emotionalPhase (s : Tracker) (d now : ℚ) :
    (update s d now).1.emotionalPhase =
      if advances (synthStep s d now) d then phases.getD (s.emotionalPhaseIndex + 1) ""
      else s.emotionalPhase := by
  simp [update]

@[simp] theorem update_phaseAccumulator (s : Tracker) (d now : ℚ) :
    (update s d now).1.phaseAccumulator =
      if advances (synthStep s d now) d then 0
      else phaseAccNext (synthStep s d now) d := by
  simp [update]

@[simp] theorem update_phaseProgress (s : Tracker) (d now : ℚ) :
    (update s d now).1.phaseProgress =
      if advances (synthStep s d now) d then 0
      else min (phaseAccNext (synthStep s d now) d) 1 := by
  simp [update]

@[simp] theorem update_event (s : Tracker) (d now : ℚ) :
    (update s d now).2 =
      if advances (synthStep s d now) d then
        some ⟨phases.getD (s.emotionalPhaseIndex + 1) "", s.emotionalPhaseIndex + 1⟩
      else none := by
  simp [update]

@[simp] theorem update_guideFishUnlocked (s : Tracker) (d now : ℚ) :
    (update s d now).1.guideFishUnlocked =
      (s.guideFishUnlocked ||
        decide (lingerNext s now > 0.8 ∧ now - s.startTime > 20 ∧
                s.guideFishLingerAccum + d > 4.0)) := by
  simp [update, synthStep]

@[simp] theorem update_guideFishLingerAccum (s : Tracker) (d now : ℚ) :
    (update s d now).1.guideFishLingerAccum =
      if ¬s.guideFishUnlocked ∧ lingerNext s now > 0.8 ∧ now - s.startTime > 20 then
        s.guideFishLingerAccum + d
      else s.guideFishLingerAccum := by
  simp [update, synthStep]

@[simp] theorem update_dataPanelsExpanded (s : Tracker) (d now : ℚ) :
    (update s d now).1.dataPanelsExpanded =
      (s.dataPanelsExpanded ||
        decide (s.mouseIdleTime + d > 1.2 ∧
          (if s.mouseIdleTime + d > 1.2 then s.mouseIdleTime + d - 1.2 else 0) > 2.0)) := by
  simp [update, synthStep]

@[simp] theorem update_beamResonance (s : Tracker) (d now : ℚ) :
    (update s d now).1.beamResonance =
      if (s.mouseX - 0.5) ^ 2 + (s.mouseY - 0.5) ^ 2 < 0.09 ∧
          mouseIntensityNext s > 0.2 then
        min 1 (s.beamResonance + d * 0.3)
      else max 0 (s.beamResonance - d * 0.1) := by
  simp [update, synthStep]

@[simp] theorem update_confrontationTriggered (s : Tracker) (d now : ℚ) :
    (update s d now).1.confrontationTriggered =
      (s.confrontationTriggered || decide (s.emotionalPhaseIndex = 2)) := by
  simp [update]

@[simp] theorem update_revelationTriggered (s : Tracker) (d now : ℚ) :
    (update s d now).1.revelationTriggered =
      (s.revelationTriggered || decide (s.emotionalPhaseIndex = 3)) := by
  simp [update]


/-! ## Channel boundedness: the inductive invariant -/

/-- The declared range of every bounded intent channel (`§3 IntentChannels`,
plus `beamResonance`). -/
structure ChannelsBounded (s : Tracker) : Prop where
  rush_nonneg : 0 ≤ s.rushFactor
  rush_le_one : s.rushFactor ≤ 1
  linger_nonneg : 0 ≤ s.lingerFactor
  linger_le_one : s.lingerFactor ≤ 1
  hesitation_nonneg : 0 ≤ s.hesitationFactor
  hesitation_le_one : s.hesitationFactor ≤ 1
  mouseIntensity_nonneg : 0 ≤ s.mouseIntensity
  mouseIntensity_le_one : s.mouseIntensity ≤ 1
  beamResonance_nonneg : 0 ≤ s.beamResonance
  beamResonance_le_one : s.beamResonance ≤ 1
  rhythm_lower : -1 ≤ s.explorationRhythm
  rhythm_upper : s.explorationRhythm ≤ 1
  timeScale_lower : 0.3 ≤ s.timeScale
  timeScale_upper : s.timeScale ≤ 2.0

/-- The inductive invariant propagated along a trace whose most recent
clock reading was `t`: channel bounds plus the auxiliary nonnegativity
facts those bounds depend on. -/
structure InvAt (t : ℚ) (s : Tracker) : Prop where
  bounded : ChannelsBounded s
  lastScroll_le : s.lastScrollTime ≤ t
  mouseVelocity_nonneg : 0 ≤ s.mouseVelocity
  sdc_nonneg : 0 ≤ s.scrollDirectionChanges
  dcd_nonneg : 0 ≤ s.directionChangeDecay

/-- An exponential-moving-average step `a + (b - a) * r` with blend rate
`r ∈ [0,1]` stays inside any interval containing both `a` and `b`. -/
theorem ema_mem {lo hi a b r : ℚ} (ha1 : lo ≤ a) (ha2 : a ≤ hi)
    (hb1 : lo ≤ b) (hb2 : b ≤ hi) (hr1 : 0 ≤ r) (hr2 : r ≤ 1) :
    lo ≤ a + (b - a) * r ∧ a + (b - a) * r ≤ hi := by
  constructor <;> nlinarith

theorem targetRush_mem (s : Tracker) : 0 ≤ targetRush s ∧ targetRush s ≤ 1 := by
  unfold targetRush
  refine ⟨le_min (by positivity) (by norm_num), min_le_right _ _⟩

theorem rushNext_mem (s : Tracker) (h0 : 0 ≤ s.rushFactor) (h1 : s.rushFactor ≤ 1) :
    0 ≤ rushNext s ∧ rushNext s ≤ 1 := by
  have ht := targetRush_mem s
  exact ema_mem h0 h1 ht.1 ht.2 (by norm_num) (by norm_num)

theorem lingerNext_mem (s : Tracker) (now : ℚ) (h : s.lastScrollTime ≤ now) :
    0 ≤ lingerNext s now ∧ lingerNext s now ≤ 1 := by
  unfold lingerNext
  refine ⟨le_min (div_nonneg (by linarith) (by norm_num)) (by norm_num), ?_⟩
  calc min ((now - s.lastScrollTime) / 3.0) 1.0 ≤ 1.0 := min_le_right _ _
    _ ≤ 1 := by norm_num

theorem dcdNext_nonneg (s : Tracker) (h1 : 0 ≤ s.directionChangeDecay)
    (h2 : 0 ≤ s.scrollDirectionChanges) : 0 ≤ dcdNext s := by
  unfold dcdNext
  nlinarith

theorem hesitationNext_mem (s : Tracker) (h1 : 0 ≤ s.directionChangeDecay)
    (h2 : 0 ≤ s.scrollDirectionChanges) :
    0 ≤ hesitationNext s ∧ hesitationNext s ≤ 1 := by
  unfold hesitationNext
  refine ⟨le_min (dcdNext_nonneg s h1 h2) (by norm_num), ?_⟩
  calc min (dcdNext s) 1.0 ≤ 1.0 := min_le_right _ _
    _ ≤ 1 := by norm_num

theorem mouseIntensityNext_mem (s : Tracker) (h0 : 0 ≤ s.mouseIntensity)
    (h1 : s.mouseIntensity ≤ 1) (hv : 0 ≤ s.mouseVelocity) :
    0 ≤ mouseIntensityNext s ∧ mouseIntensityNext s ≤ 1 := by
  have ht : 0 ≤ targetMouseIntensity s ∧ targetMouseIntensity s ≤ 1 := by
    unfold targetMouseIntensity
    exact ⟨le_min (by positivity) (by norm_num), min_le_right _ _⟩
  exact ema_mem h0 h1 ht.1 ht.2 (by norm_num) (by norm_num)

theorem rhythmNext_mem (s : Tracker) (now : ℚ) (h1 : -1 ≤ s.explorationRhythm)
    (h2 : s.explorationRhythm ≤ 1) :
    -1 ≤ rhythmNext s now ∧ rhythmNext s now ≤ 1 := by
  have ht : -1 ≤ targetRhythm s now ∧ targetRhythm s now ≤ 1 := by
    unfold targetRhythm
    exact ⟨le_max_left _ _, max_le (by norm_num) (min_le_left _ _)⟩
  exact ema_mem h1 h2 ht.1 ht.2 (by norm_num) (by norm_num)

theorem timeScaleNext_mem (s : Tracker) (now : ℚ) :
    0.3 ≤ timeScaleNext s now ∧ timeScaleNext s now ≤ 2.0 := by
  unfold timeScaleNext
  exact ⟨le_max_left _ _, max_le (by norm_num) (min_le_left _ _)⟩

theorem InvAt_update {t : ℚ} {s : Tracker} (d now : ℚ) (h : InvAt t s)
    (ht : t ≤ now) (hd : 0 ≤ d) : InvAt now ((update s d now).1) := by
  obtain ⟨hb, hl, hmv, hsdc, hdcd⟩ := h
  have hls : s.lastScrollTime ≤ now := le_trans hl ht
  refine ⟨⟨?_, ?_, ?_, ?_, ?_, ?_, ?_, ?_, ?_, ?_, ?_, ?_, ?_, ?_⟩, ?_, ?_, ?_, ?_⟩
  · simpa using (rushNext_mem s hb.rush_nonneg hb.rush_le_one).1
  · simpa using (rushNext_mem s hb.rush_nonneg hb.rush_le_one).2
  · simpa using (lingerNext_mem s now hls).1
  · simpa using (lingerNext_mem s now hls).2
  · simpa using (hesitationNext_mem s hdcd hsdc).1
  · simpa using (hesitationNext_mem s hdcd hsdc).2
  · simpa using
      (mouseIntensityNext_mem s hb.mouseIntensity_nonneg hb.mouseIntensity_le_one hmv).1
  · simpa using
      (mouseIntensityNext_mem s hb.mouseIntensity_nonneg hb.mouseIntensity_le_one hmv).2
  · simp only [update_beamResonance]
    split_ifs
    · exact le_min (by norm_num) (by nlinarith [hb.beamResonance_nonneg])
    · exact le_max_left _ _
  · simp only [update_beamResonance]
    split_ifs
    · exact min_le_left _ _
    · exact max_le (by norm_num) (by nlinarith [hb.beamResonance_le_one])
  · simpa using (rhythmNext_mem s now hb.rhythm_lower hb.rhythm_upper).1
  · simpa using (rhythmNext_mem s now hb.rhythm_lower hb.rhythm_upper).2
  · simpa using (timeScaleNext_mem s now).1
  · simpa using (timeScaleNext_mem s now).2
  · simpa using hls
  · simpa using mul_nonneg hmv (by norm_num)
  · simpa using mul_nonneg hsdc (by norm_num)
  · simpa using dcdNext_nonneg s hdcd hsdc

theorem InvAt_handleScroll {t : ℚ} {s : Tracker} (now y : ℚ) (h : InvAt t s)
    (ht : t ≤ now) : InvAt now (handleScroll s now y) := by
  obtain ⟨hb, hl, hmv, hsdc, hdcd⟩ := h
  obtain ⟨b1, b2, b3, b4, b5, b6, b7, b8, b9, b10, b11, b12, b13, b14⟩ := hb
  refine ⟨⟨?_, ?_, ?_, ?_, ?_, ?_, ?_, ?_, ?_, ?_, ?_, ?_, ?_, ?_⟩, ?_, ?_, ?_, ?_⟩ <;>
    simp [handleScroll] <;> first
      | assumption
      | split_ifs <;> linarith

theorem InvAt_handleMouseMove {t : ℚ} {s : Tracker} (now x y dist : ℚ)
    (h : InvAt t s) (ht : t ≤ now) (hdist : 0 ≤ dist) :
    InvAt now (handleMouseMove s now x y dist) := by
  obtain ⟨hb, hl, hmv, hsdc, hdcd⟩ := h
  obtain ⟨b1, b2, b3, b4, b5, b6, b7, b8, b9, b10, b11, b12, b13, b14⟩ := hb
  refine ⟨⟨?_, ?_, ?_, ?_, ?_, ?_, ?_, ?_, ?_, ?_, ?_, ?_, ?_, ?_⟩, ?_, ?_, ?_, ?_⟩ <;>
    simp [handleMouseMove] <;> first
      | assumption
      | linarith
      | positivity

theorem InvAt_handleMouseDown {t : ℚ} {s : Tracker} (h : InvAt t s) :
    InvAt t (handleMouseDown s) := by
  obtain ⟨hb, hl, hmv, hsdc, hdcd⟩ := h
  obtain ⟨b1, b2, b3, b4, b5, b6, b7, b8, b9, b10, b11, b12, b13, b14⟩ := hb
  exact ⟨⟨b1, b2, b3, b4, b5, b6, b7, b8, b9, b10, b11, b12, b13, b14⟩,
    hl, hmv, hsdc, hdcd⟩

theorem InvAt_requestZoneTransition {t : ℚ} {s : Tracker} (h : InvAt t s) :
    InvAt t (requestZoneTransition s).1 := by
  obtain ⟨hb, hl, hmv, hsdc, hdcd⟩ := h
  obtain ⟨b1, b2, b3, b4, b5, b6, b7, b8, b9, b10, b11, b12, b13, b14⟩ := hb
  refine ⟨⟨?_, ?_, ?_, ?_, ?_, ?_, ?_, ?_, ?_, ?_, ?_, ?_, ?_, ?_⟩, ?_, ?_, ?_, ?_⟩ <;>
    simp [requestZoneTransition] <;> first
      | assumption
      | (split_ifs <;> assumption)

theorem InvAt_triggerPerceptionShift {t : ℚ} {s : Tracker} (h : InvAt t s) :
    InvAt t (triggerPerceptionShift s) := by
  obtain ⟨hb, hl, hmv, hsdc, hdcd⟩ := h
  obtain ⟨b1, b2, b3, b4, b5, b6, b7, b8, b9, b10, b11, b12, b13, b14⟩ := hb
  refine ⟨⟨?_, ?_, ?_, ?_, ?_, ?_, ?_, ?_, ?_, ?_, ?_, ?_, ?_, ?_⟩, ?_, ?_, ?_, ?_⟩ <;>
    simp [triggerPerceptionShift] <;> first
      | assumption
      | (split_ifs <;> assumption)

theorem InvAt_updatePerceptionShift {t : ℚ} {s : Tracker} (d : ℚ) (h : InvAt t s) :
    InvAt t (updatePerceptionShift s d) := by
  obtain ⟨hb, hl, hmv, hsdc, hdcd⟩ := h
  obtain ⟨b1, b2, b3, b4, b5, b6, b7, b8, b9, b10, b11, b12, b13, b14⟩ := hb
  refine ⟨⟨?_, ?_, ?_, ?_, ?_, ?_, ?_, ?_, ?_, ?_, ?_, ?_, ?_, ?_⟩, ?_, ?_, ?_, ?_⟩ <;>
    simp [updatePerceptionShift] <;> first
      | assumption
      | (split_ifs <;> assumption)

/-- The clock reading after executing a list of operations whose previous
reading was `t`. -/
def finalClock (t : ℚ) : List Op → ℚ
  | [] => t
  | .scroll now _ :: rest => finalClock now rest
  | .mouseMove now _ _ _ :: rest => finalClock now rest
  | .update _ now :: rest => finalClock now rest
  | _ :: rest => finalClock t rest

theorem InvAt_run (ops : List Op) : ∀ (t : ℚ) (s : Tracker), InvAt t s →
    validFrom t ops = true → InvAt (finalClock t ops) (run s ops) := by
  induction ops with
  | nil =>
    intro t s h _
    simpa [run, finalClock] using h
  | cons op rest ih =>
    intro t s h hv
    cases op with
    | scroll now y =>
      simp only [validFrom, Bool.and_eq_true, decide_eq_true_eq] at hv
      exact ih now _ (InvAt_handleScroll now y h hv.1) hv.2
    | mouseMove now x y dist =>
      simp only [validFrom, Bool.and_eq_true, decide_eq_true_eq] at hv
      exact ih now _ (InvAt_handleMouseMove now x y dist h hv.1.1 hv.1.2) hv.2
    | mouseDown =>
      exact ih t _ (InvAt_handleMouseDown h) hv
    | update d now =>
      simp only [validFrom, Bool.and_eq_true, decide_eq_true_eq] at hv
      exact ih now _ (InvAt_update d now h hv.1.1 hv.1.2) hv.2
    | requestZoneTransition =>
      exact ih t _ (InvAt_requestZoneTransition h) hv
    | triggerPerceptionShift =>
      exact ih t _ (InvAt_triggerPerceptionShift h) hv
    | updatePerceptionShift d =>
      simp only [validFrom, Bool.and_eq_true, decide_eq_true_eq] at hv
      exact ih t _ (InvAt_updatePerceptionShift d h) hv.2

theorem InvAt_init (t0 : ℚ) (h : 0 ≤ t0) : InvAt t0 (initTracker t0) := by
  refine ⟨⟨?_, ?_, ?_, ?_, ?_, ?_, ?_, ?_, ?_, ?_, ?_, ?_, ?_, ?_⟩, ?_, ?_, ?_, ?_⟩ <;>
    first
      | simpa [initTracker] using h
      | norm_num [initTracker]


/-! ## Per-operation helper lemmas for the temporal claims -/

theorem step_emotionalPhaseIndex_le (s : Tracker) (op : Op) :
    s.emotionalPhaseIndex ≤ (step s op).emotionalPhaseIndex := by
  cases op <;>
    simp [step, handleScroll, handleMouseMove, handleMouseDown,
      requestZoneTransition, triggerPerceptionShift, updatePerceptionShift] <;>
    split_ifs <;> simp

theorem run_emotionalPhaseIndex_le (s : Tracker) (ops : List Op) :
    s.emotionalPhaseIndex ≤ (run s ops).emotionalPhaseIndex := by
  induction ops generalizing s with
  | nil => simp [run]
  | cons op rest ih =>
    calc s.emotionalPhaseIndex ≤ (step s op).emotionalPhaseIndex :=
          step_emotionalPhaseIndex_le s op
      _ ≤ (run (step s op) rest).emotionalPhaseIndex := ih (step s op)
      _ = (run s (op :: rest)).emotionalPhaseIndex := by simp [run]

theorem step_guideFishUnlocked_mono (s : Tracker) (op : Op)
    (h : s.guideFishUnlocked = true) : (step s op).guideFishUnlocked = true := by
  cases op <;>
    simp [step, handleScroll, handleMouseMove, handleMouseDown,
      requestZoneTransition, triggerPerceptionShift, updatePerceptionShift, h] <;>
    split_ifs <;> simp [h]

theorem step_dataPanelsExpanded_mono (s : Tracker) (op : Op)
    (h : s.dataPanelsExpanded = true) : (step s op).dataPanelsExpanded = true := by
  cases op <;>
    simp [step, handleScroll, handleMouseMove, handleMouseDown,
      requestZoneTransition, triggerPerceptionShift, updatePerceptionShift, h] <;>
    split_ifs <;> simp [h]

theorem step_gravity_eq_shift (s : Tracker) (op : Op)
    (h : s.gravityInverted = s.perceptionShiftActive) :
    (step s op).gravityInverted = (step s op).perceptionShiftActive := by
  cases op <;>
    simp [step, handleScroll, handleMouseMove, handleMouseDown,
      requestZoneTransition, triggerPerceptionShift, updatePerceptionShift, h] <;>
    split_ifs <;> simp_all

/-! ## Claim theorems -/

/-- C4: across every sequence of operations, `emotionalPhaseIndex` is
monotonically non-decreasing and never regresses; on every single `update`
tick it either stays put with no notification, or advances by exactly 1,
resetting the accumulator to 0 immediately and emitting exactly one
`emotionalPhaseChange` notification that carries the new phase index and
the new phase name. -/
theorem emotional_phase_monotone_and_notified :
    (∀ (s : Tracker) (ops : List Op),
        s.emotionalPhaseIndex ≤ (run s ops).emotionalPhaseIndex) ∧
    (∀ (s : Tracker) (d now : ℚ),
        ((update s d now).1.emotionalPhaseIndex = s.emotionalPhaseIndex ∧
          (update s d now).2 = none) ∨
        ((update s d now).1.emotionalPhaseIndex = s.emotionalPhaseIndex + 1 ∧
          (update s d now).1.phaseAccumulator = 0 ∧
          (update s d now).2 =
            some ⟨(update s d now).1.emotionalPhase,
                  (update s d now).1.emotionalPhaseIndex⟩)) := by
  constructor
  · exact run_emotionalPhaseIndex_le
  · intro s d now
    by_cases h : advances (synthStep s d now) d
    · right
      simp [h]
    · left
      simp [h]

/-- C6: the two unlock latches are monotonic: once `guideFishUnlocked` or
`dataPanelsExpanded` has flipped to true, it stays true across every
subsequent sequence of input events and calls. -/
theorem unlock_latches_monotone (s : Tracker) (ops : List Op) :
    (s.guideFishUnlocked = true → (run s ops).guideFishUnlocked = true) ∧
    (s.dataPanelsExpanded = true → (run s ops).dataPanelsExpanded = true) := by
  induction ops generalizing s with
  | nil => simp [run]
  | cons op rest ih =>
    constructor <;> intro h
    · have h1 := step_guideFishUnlocked_mono s op h
      have := (ih (step s op)).1 h1
      simpa [run] using this
    · have h1 := step_dataPanelsExpanded_mono s op h
      have := (ih (step s op)).2 h1
      simpa [run] using this

/-- Witness for C6 at a concrete state and trace. -/
theorem unlock_latches_monotone_witness :
    (run { initTracker 0 with guideFishUnlocked := true, dataPanelsExpanded := true }
        [Op.update 1 1]).guideFishUnlocked = true ∧
    (run { initTracker 0 with guideFishUnlocked := true, dataPanelsExpanded := true }
        [Op.update 1 1]).dataPanelsExpanded = true :=
  ⟨(unlock_latches_monotone _ [Op.update 1 1]).1 rfl,
   (unlock_latches_monotone _ [Op.update 1 1]).2 rfl⟩

/-- C10: in every reachable state the publicly readable `gravityInverted`
equals `perceptionShiftActive`: both start false, `triggerPerceptionShift`
sets both together, and completion of the shift clears both together. -/
theorem gravity_inverted_iff_shift_active (t0 : ℚ) (ops : List Op) :
    (run (initTracker t0) ops).gravityInverted =
      (run (initTracker t0) ops).perceptionShiftActive := by
  have key : ∀ (s : Tracker) (l : List Op),
      s.gravityInverted = s.perceptionShiftActive →
      (run s l).gravityInverted = (run s l).perceptionShiftActive := by
    intro s l
    induction l generalizing s with
    | nil => intro h; simpa [run] using h
    | cons op rest ih =>
      intro h
      have := ih (step s op) (step_gravity_eq_shift s op h)
      simpa [run] using this
  exact key (initTracker t0) ops (by simp [initTracker])


/-- C2: for every sequence of input events and `update` calls with
non-negative `dt` and monotone clock readings (including huge `dt`, zero
`dt`, and arbitrary sign-flipping scroll), every bounded channel is inside
its declared range after every call: `rushFactor`, `lingerFactor`,
`hesitationFactor`, `mouseIntensity`, `beamResonance ∈ [0,1]`,
`explorationRhythm ∈ [-1,1]`, `timeScale ∈ [0.3,2.0]`. -/
theorem intent_channels_bounded (t0 : ℚ) (ops : List Op) (h0 : 0 ≤ t0)
    (hv : validFrom t0 ops = true) :
    ChannelsBounded (run (initTracker t0) ops) :=
  (InvAt_run ops t0 (initTracker t0) (InvAt_init t0 h0) hv).bounded

/-- Witness for C2 on a concrete trace. -/
theorem intent_channels_bounded_witness :
    ChannelsBounded (run (initTracker 0) [Op.update 1 1]) :=
  intent_channels_bounded 0 [Op.update 1 1] (by norm_num) (by norm_num [validFrom])

/-- C5: `triggerPerceptionShift` is idempotent (a second call is a no-op,
so N > 1 calls produce exactly one activation); while active,
`updatePerceptionShift(dt)` advances `perceptionShiftProgress` by exactly
`dt * 0.25` saturating at 1, never decreasing it; the shift deactivates
exactly when the progress reaches 1, leaving progress at 1; and once
inactive (both before triggering and after completion) `updatePerceptionShift`
is the identity, so the shift never restarts. -/
theorem perception_shift_idempotent :
    (∀ s : Tracker,
        triggerPerceptionShift (triggerPerceptionShift s) = triggerPerceptionShift s) ∧
    (∀ s : Tracker, s.perceptionShiftTriggered = true → triggerPerceptionShift s = s) ∧
    (∀ (s : Tracker) (d : ℚ), 0 ≤ d → s.perceptionShiftProgress ≤ 1 →
      s.perceptionShiftActive = true →
      ((updatePerceptionShift s d).perceptionShiftProgress =
          min (s.perceptionShiftProgress + d * 0.25) 1 ∧
        s.perceptionShiftProgress ≤ (updatePerceptionShift s d).perceptionShiftProgress ∧
        ((updatePerceptionShift s d).perceptionShiftActive = false ↔
          1 ≤ s.perceptionShiftProgress + d * 0.25) ∧
        ((updatePerceptionShift s d).perceptionShiftActive = false →
          (updatePerceptionShift s d).perceptionShiftProgress = 1))) ∧
    (∀ (s : Tracker) (d : ℚ), s.perceptionShiftActive = false →
      updatePerceptionShift s d = s) := by
  refine ⟨?_, ?_, ?_, ?_⟩
  · intro s
    by_cases h : s.perceptionShiftTriggered = true <;>
      simp [triggerPerceptionShift, h]
  · intro s h
    simp [triggerPerceptionShift, h]
  · intro s d hd hp ha
    simp only [updatePerceptionShift, ha, if_true]
    split_ifs with h1
    · refine ⟨(min_eq_right h1).symm, by simpa using hp, by simpa using h1, fun _ => rfl⟩
    · push_neg at h1
      refine ⟨(min_eq_left (le_of_lt h1)).symm, by simp; linarith, by simpa using h1.not_le, ?_⟩
      simp
  · intro s d h
    simp [updatePerceptionShift, h]

/-- Witness for C5 at a concrete active state. -/
theorem perception_shift_idempotent_witness :
    (updatePerceptionShift (triggerPerceptionShift (initTracker 0)) 2).perceptionShiftProgress =
      min ((triggerPerceptionShift (initTracker 0)).perceptionShiftProgress + 2 * 0.25) 1 :=
  (perception_shift_idempotent.2.2.1 (triggerPerceptionShift (initTracker 0)) 2
    (by norm_num)
    (by norm_num [triggerPerceptionShift, initTracker])
    (by simp [triggerPerceptionShift, initTracker])).1

/-- C9: while the gate is locked, a tick on which the unlock condition
(the freshly computed `rushFactor < 0.15 ∧ lingerFactor > 0.3`) fails
resets `zoneGateTimer` to 0 and keeps the gate locked (no partial credit
across an interruption); on a tick where it holds, the timer accrues `dt`,
and the gate unlocks exactly when the accrued continuous time exceeds
0.4 s. -/
theorem zone_gate_hysteresis (s : Tracker) (d now : ℚ)
    (hL : s.zoneGateLocked = true) :
    (((update s d now).1.rushFactor < 0.15 ∧ (update s d now).1.lingerFactor > 0.3) ↔
        unlockCond s now) ∧
    (¬ unlockCond s now →
      (update s d now).1.zoneGateTimer = 0 ∧ (update s d now).1.zoneGateLocked = true) ∧
    (unlockCond s now → s.zoneGateTimer + d > 0.4 →
      (update s d now).1.zoneGateLocked = false ∧ (update s d now).1.zoneGateTimer = 0) ∧
    (unlockCond s now → ¬(s.zoneGateTimer + d > 0.4) →
      (update s d now).1.zoneGateLocked = true ∧
      (update s d now).1.zoneGateTimer = s.zoneGateTimer + d) := by
  refine ⟨?_, ?_, ?_, ?_⟩
  · simp [unlockCond]
  · intro h
    simp [hL, h]
  · intro h h2
    simp [hL, h, h2]
  · intro h h2
    simp [hL, h, h2]

/-- Witness for C9: a locked tracker pausing long enough unlocks. -/
theorem zone_gate_hysteresis_witness :
    (update { initTracker 0 with zoneGateLocked := true } 1 2).1.zoneGateLocked = false ∧
    (update { initTracker 0 with zoneGateLocked := true } 1 2).1.zoneGateTimer = 0 :=
  (zone_gate_hysteresis { initTracker 0 with zoneGateLocked := true } 1 2 rfl).2.2.1
    (by norm_num [unlockCond, rushNext, targetRush, lingerNext, initTracker])
    (by norm_num [initTracker])


/-- Along any trace whose `update` clock readings never exceed
`startTime + 20`, the guide-fish latch stays off and its accumulator stays
zero. -/
theorem run_guideFish_false (ops : List Op) : ∀ s : Tracker,
    s.guideFishUnlocked = false → s.guideFishLingerAccum = 0 →
    updateTimesLE (s.startTime + 20) ops = true →
    (run s ops).guideFishUnlocked = false := by
  induction ops with
  | nil =>
    intro s h _ _
    simpa [run] using h
  | cons op rest ih =>
    intro s h hacc hv
    cases op with
    | update d now =>
      simp only [updateTimesLE, Bool.and_eq_true, decide_eq_true_eq] at hv
      have hno : ¬(now - s.startTime > 20) := by linarith [hv.1]
      have := ih ((update s d now).1) (by simp [h, hno]) (by simp [hacc, hno])
        (by simpa using hv.2)
      simpa [run, step] using this
    | scroll now y =>
      have := ih (handleScroll s now y) (by simp [handleScroll, h])
        (by simp [handleScroll, hacc]) (by simpa [handleScroll] using hv)
      simpa [run, step] using this
    | mouseMove now x y dist =>
      have := ih (handleMouseMove s now x y dist) (by simp [handleMouseMove, h])
        (by simp [handleMouseMove, hacc]) (by simpa [handleMouseMove] using hv)
      simpa [run, step] using this
    | mouseDown =>
      have := ih (handleMouseDown s) (by simp [handleMouseDown, h])
        (by simp [handleMouseDown, hacc]) (by simpa [handleMouseDown] using hv)
      simpa [run, step] using this
    | requestZoneTransition =>
      have := ih (requestZoneTransition s).1
        (by simp [requestZoneTransition, apply_ite Prod.fst, h])
        (by simp [requestZoneTransition, apply_ite Prod.fst, hacc])
        (by simpa [requestZoneTransition, apply_ite Prod.fst] using hv)
      simpa [run, step] using this
    | triggerPerceptionShift =>
      have := ih (triggerPerceptionShift s) (by simp [triggerPerceptionShift, h])
        (by simp [triggerPerceptionShift, hacc])
        (by simpa [triggerPerceptionShift] using hv)
      simpa [run, step] using this
    | updatePerceptionShift d =>
      have := ih (updatePerceptionShift s d) (by simp [updatePerceptionShift, h])
        (by simp [updatePerceptionShift, hacc])
        (by simpa [updatePerceptionShift] using hv)
      simpa [run, step] using this

/-- C7: `guideFishUnlocked` stays false while every `update` happens within
the first 20 seconds of uptime, whatever the linger channel does; on any
single tick starting from a still-locked state it flips exactly when uptime
exceeds 20 s, the fresh linger value exceeds 0.8, and the (never
decremented) accumulator plus this tick's `dt` exceeds 4 s; and the
accumulator itself only grows, by `dt`, on ticks where the linger and
uptime conditions hold. -/
theorem guide_fish_eligibility_gate :
    (∀ (t0 : ℚ) (ops : List Op), updateTimesLE (t0 + 20) ops = true →
        (run (initTracker t0) ops).guideFishUnlocked = false) ∧
    (∀ (s : Tracker) (d now : ℚ), s.guideFishUnlocked = false →
        ((update s d now).1.guideFishUnlocked = true ↔
          (lingerNext s now > 0.8 ∧ now - s.startTime > 20 ∧
            s.guideFishLingerAccum + d > 4.0))) ∧
    (∀ (s : Tracker) (d now : ℚ),
        (update s d now).1.guideFishLingerAccum =
          if ¬s.guideFishUnlocked ∧ lingerNext s now > 0.8 ∧ now - s.startTime > 20 then
            s.guideFishLingerAccum + d
          else s.guideFishLingerAccum) := by
  refine ⟨?_, ?_, ?_⟩
  · intro t0 ops hv
    exact run_guideFish_false ops (initTracker t0) (by simp [initTracker])
      (by simp [initTracker]) (by simpa [initTracker] using hv)
  · intro s d now h
    simp [h]
  · intro s d now
    simp

/-- Witness for C7: one update at uptime 5 s with full linger leaves the
latch off. -/
theorem guide_fish_eligibility_gate_witness :
    (run (initTracker 0) [Op.update 1 5]).guideFishUnlocked = false :=
  guide_fish_eligibility_gate.1 0 [Op.update 1 5] (by norm_num [updateTimesLE])

/-- The dwell scenario of C8 with 1.19 s of accumulated pointer idle time. -/
def dwellTrace119 : List Op :=
  [Op.mouseMove 0 0.3 0.7 0, Op.update 0.6 1, Op.update 0.59 2]

/-- The dwell scenario of C8 with 1.21 s of accumulated pointer idle time. -/
def dwellTrace121 : List Op :=
  [Op.mouseMove 0 0.3 0.7 0, Op.update 0.6 1, Op.update 0.61 2]

/-- C8: after every `update`, `cursorDwelling` holds exactly when the
accumulated pointer idle time (incremented by `dt` each tick, reset to 0 by
every pointer move) strictly exceeds 1.2 s, and while it holds the dwell
position equals the pointer position recorded at the last move; concretely,
idling 0.6 + 0.59 = 1.19 s never dwells, while 0.6 + 0.61 = 1.21 s dwells
with the position latched from the move. -/
theorem cursor_dwell_semantics :
    (∀ (s : Tracker) (d now : ℚ),
        (update s d now).1.cursorDwelling = decide (s.mouseIdleTime + d > 1.2) ∧
        (update s d now).1.mouseIdleTime = s.mouseIdleTime + d) ∧
    (∀ (s : Tracker) (d now : ℚ), s.mouseIdleTime + d > 1.2 →
        (update s d now).1.cursorDwellX = s.mouseX ∧
        (update s d now).1.cursorDwellY = s.mouseY ∧
        (update s d now).1.cursorDwellDuration = s.mouseIdleTime + d - 1.2) ∧
    (∀ (s : Tracker) (now x y dist : ℚ),
        (handleMouseMove s now x y dist).mouseIdleTime = 0 ∧
        (handleMouseMove s now x y dist).mouseX = x ∧
        (handleMouseMove s now x y dist).mouseY = y) ∧
    ((run (initTracker 0) (dwellTrace119.take 2)).cursorDwelling = false ∧
      (run (initTracker 0) dwellTrace119).cursorDwelling = false ∧
      (run (initTracker 0) dwellTrace121).cursorDwelling = true ∧
      (run (initTracker 0) dwellTrace121).cursorDwellX = 0.3 ∧
      (run (initTracker 0) dwellTrace121).cursorDwellY = 0.7) := by
  refine ⟨?_, ?_, ?_, ?_⟩
  · intro s d now
    simp
  · intro s d now h
    simp [h]
  · intro s now x y dist
    simp [handleMouseMove]
  · norm_num [dwellTrace119, dwellTrace121, run, step, update, synthStep, unlockStep,
      updateEmotionalPhase, handleMouseMove, initTracker, phases, rushNext, targetRush,
      lingerNext, dcdNext, hesitationNext, targetMouseIntensity, mouseIntensityNext,
      targetRhythm, rhythmNext, unlockCond, targetTimeScale, timeScaleNext,
      accumRate, accumRate0, phaseAccNext, advances]

/-- Witness for C8 at a concrete over-threshold idle time. -/
theorem cursor_dwell_semantics_witness :
    (update (initTracker 0) 2 3).1.cursorDwellX = (initTracker 0).mouseX ∧
    (update (initTracker 0) 2 3).1.cursorDwellY = (initTracker 0).mouseY ∧
    (update (initTracker 0) 2 3).1.cursorDwellDuration =
      (initTracker 0).mouseIdleTime + 2 - 1.2 :=
  cursor_dwell_semantics.2.1 (initTracker 0) 2 3 (by norm_num [initTracker])

/-- A valid trace that locks the zone gate by rushing (seven smoothing
ticks of fast scrolling push `rushFactor` above 0.4, and the refused
`requestZoneTransition` locks the gate), then lets `rushFactor` decay to
≈0.374 — below the 0.4 refusal threshold but far above nothing resembling
the `rush < 0.15 ∧ linger > 0.3`-for-0.4 s unlock, so the gate is still
locked. -/
def gateLockTrace : List Op :=
  [Op.scroll 1 4000] ++ List.replicate 7 (Op.update 0.02 1) ++
    [Op.requestZoneTransition, Op.scroll 1 4000] ++ List.replicate 2 (Op.update 0.02 1)

/-- C1: the counterexample exhibit.  After the valid trace `gateLockTrace`
the gate is locked (`zoneGateLocked = true`) and the unlock condition has
never held, yet `requestZoneTransition()` returns `true` because the code
only tests `rushFactor > 0.4` and never reads `zoneGateLocked`. -/
theorem requestZoneTransition_ignores_lock :
    validFrom 0 gateLockTrace = true ∧
    (run (initTracker 0) gateLockTrace).zoneGateLocked = true ∧
    ¬((run (initTracker 0) gateLockTrace).rushFactor > 0.4) ∧
    (requestZoneTransition (run (initTracker 0) gateLockTrace)).2 = true := by
  norm_num [gateLockTrace, run, step, update, synthStep, unlockStep, updateEmotionalPhase,
    handleScroll, requestZoneTransition, signQ, initTracker, phases, validFrom,
    List.replicate, rushNext, targetRush, lingerNext, dcdNext, hesitationNext,
    targetMouseIntensity, mouseIntensityNext, targetRhythm, rhythmNext, unlockCond,
    targetTimeScale, timeScaleNext, accumRate, accumRate0, phaseAccNext, advances]

/-- A tracker that has entered the terminal `transformation` phase (the
state produced by the advance into phase 4: accumulator and progress were
just reset to 0). -/
def phase4State : Tracker :=
  { initTracker 0 with emotionalPhaseIndex := 4, emotionalPhase := "transformation" }

/-- C3: the terminal-phase exhibit.  At `emotionalPhaseIndex = 4` the
per-tick accumulation rate is 0 and the index stays 4, but `phaseProgress`
after an update is `min(accumulator, 1) = 0`, NOT the pinned 1 the claim
asserts (the `case 4` assignment `phaseProgress = 1` is overwritten by the
unconditional `phaseProgress = min(accumulator, 1)` after the switch), and
a pointer-down still adds 0.02 to the accumulator. -/
theorem transformation_not_pinned_bug :
    (update phase4State (1/60) 10).1.emotionalPhaseIndex = 4 ∧
    accumRate phase4State = 0 ∧
    (update phase4State (1/60) 10).1.phaseAccumulator = 0 ∧
    (update phase4State (1/60) 10).1.phaseProgress = 0 ∧
    (handleMouseDown phase4State).phaseAccumulator = 0.02 := by
  norm_num [phase4State, update, synthStep, unlockStep, updateEmotionalPhase,
    handleMouseDown, initTracker, phases, accumRate, accumRate0, phaseAccNext, advances,
    rushNext, targetRush, lingerNext, dcdNext, hesitationNext, targetMouseIntensity,
    mouseIntensityNext, targetRhythm, rhythmNext, unlockCond, targetTimeScale,
    timeScaleNext]

end AquaIntent
